import Mathlib

/-!
Verification development for the intranet analytics ETL pipeline
(scripts/ingest_data.py and scripts/create_aggregations.py).

The pipeline is a sequence of DuckDB SQL statements over four tables
(fact, page_inventory, dim_date, optionally employee_contact).  We embed
each table as a Lean list of row structures, a nullable SQL column as an
Option, and each SQL statement as a pure function on those lists:

  * SQL NULL is `none`; SQL three-valued predicate logic is embedded by
    Option Bool valued functions (a WHERE / DELETE predicate selects a row
    only when it evaluates to `some true`).
  * GROUP BY is a fuel-indexed structurally recursive grouping function
    (so that concrete instances compute inside the kernel).
  * DuckDB DATE values are embedded as their internal representation,
    the number of days since 1970-01-01 (a Nat here: every date the
    pipeline generates is after 1970).  Calendar conversions follow the
    standard civil-from-days / days-from-civil algorithms.
  * DOUBLE columns (durationsum, durationavg) are embedded as Rat; no
    claim depends on float rounding, the columns are only carried along
    and summed.
-/

set_option maxRecDepth 100000
set_option maxHeartbeats 4000000

/-! ## SQL value semantics -/

/-- SQL three-valued conjunction (Kleene logic), as DuckDB evaluates AND. -/
def sql3And : Option Bool → Option Bool → Option Bool
  | some false, _ => some false
  | _, some false => some false
  | some true, some true => some true
  | _, _ => none

/-- SQL comparison x >= b where x is a nullable BIGINT and b a non-null bound. -/
def sql3GeInt (x : Option Int) (b : Int) : Option Bool :=
  x.map (fun v => decide (b ≤ v))

/-- SQL comparison x <= b where x is a nullable BIGINT and b a non-null bound. -/
def sql3LeInt (x : Option Int) (b : Int) : Option Bool :=
  x.map (fun v => decide (v ≤ b))

/-- SQL x != lit for a nullable VARCHAR column and a string literal:
NULL != lit is NULL (not true), so the WHERE filter drops NULL keys. -/
def sql3NeqLit (x : Option String) (lit : String) : Option Bool :=
  x.map (fun v => !decide (v = lit))

/-- SQL membership x IN (subquery values): true when x is non-null and equals
a non-null element; false when the list is empty or (x non-null and) no
element matches and no element is NULL; NULL otherwise. -/
def sql3In (x : Option String) (ys : List (Option String)) : Option Bool :=
  match x with
  | none => if ys.isEmpty then some false else none
  | some v =>
    if ys.any (fun y => decide (y = some v)) then some true
    else if ys.any (fun y => decide (y = none)) then none
    else some false

/-- Truthiness of a WHERE / DELETE / join predicate: a row is selected only
when the predicate evaluates to TRUE (NULL does not select). -/
def sqlTrue (b : Option Bool) : Bool := decide (b = some true)

/-- SQL equality join condition between two nullable VARCHAR columns: a NULL
on either side never matches. -/
def sqlEqStr (a b : Option String) : Bool :=
  match a, b with
  | some x, some y => decide (x = y)
  | _, _ => false

/-- SQL SUM over a nullable BIGINT column: NULLs are skipped; the sum of no
non-null values is NULL. -/
def sqlSumInt (xs : List (Option Int)) : Option Int :=
  let vs := xs.filterMap id
  if vs.isEmpty then none else some vs.sum

/-- SQL SUM over a nullable DOUBLE column (embedded as Rat). -/
def sqlSumRat (xs : List (Option Rat)) : Option Rat :=
  let vs := xs.filterMap id
  if vs.isEmpty then none else some vs.sum

/-- SQL MIN over a nullable BIGINT column: NULLs skipped, NULL when no value. -/
def sqlMinInt (xs : List (Option Int)) : Option Int :=
  (xs.filterMap id).min?

/-- SQL MAX over a nullable BIGINT column: NULLs skipped, NULL when no value. -/
def sqlMaxInt (xs : List (Option Int)) : Option Int :=
  (xs.filterMap id).max?

/-- SQL addition of two nullable BIGINT values: NULL propagates. -/
def sqlAddInt : Option Int → Option Int → Option Int
  | some a, some b => some (a + b)
  | _, _ => none

/-- COUNT(DISTINCT col): NULLs are not counted; duplicates count once. -/
def countDistinct {α : Type} [DecidableEq α] (xs : List (Option α)) : Nat :=
  (xs.filterMap id).dedup.length

/-! ## GROUP BY

A structurally recursive (fuel-indexed) grouping function: `groupBy key l`
returns one (key, rows-of-that-key) pair per distinct key of l, the rows of
each group in their original order.  The fuel is the list length, so the
definition computes by kernel reduction on concrete inputs. -/

def groupByGo {α κ : Type} [DecidableEq κ] (key : α → κ) : Nat → List α → List (κ × List α)
  | _, [] => []
  | 0, _ :: _ => []
  | n + 1, x :: xs =>
    (key x, x :: xs.filter (fun y => decide (key y = key x))) ::
      groupByGo key n (xs.filter (fun y => !decide (key y = key x)))

def groupBy {α κ : Type} [DecidableEq κ] (key : α → κ) (l : List α) : List (κ × List α) :=
  groupByGo key l.length l

/-- Insertion into a list sorted by descending measure. -/
def insertDescBy {α : Type} (meas : α → Nat) (x : α) : List α → List α
  | [] => [x]
  | y :: ys => if meas y ≤ meas x then x :: y :: ys else y :: insertDescBy meas x ys

/-- Sort by descending measure (embeds ORDER BY cnt DESC). -/
def sortDescBy {α : Type} (meas : α → Nat) : List α → List α
  | [] => []
  | x :: xs => insertDescBy meas x (sortDescBy meas xs)

/-! ## Row types

Field names follow the column names the SQL statements produce. -/

/-- A raw row of the fact CSV, with the column names read_csv reports
(the fact_ prefixed names the SELECT renames). -/
structure CsvFactRow where
  fact_visitdatekey : Option Int
  fact_referrerapplicationid : Option String
  fact_marketingPageId : Option String
  fact_views : Option Int
  fact_viewingcontactid : Option String
  fact_flag : Option String
  fact_visits : Option Int
  fact_durationsum : Option Rat
  fact_durationavg : Option Rat
  fact_comments : Option Int
  fact_marketingPageIdliked : Option String
deriving DecidableEq

/-- A row of the fact table (CREATE TABLE fact in ingest_data.py). -/
structure FactRow where
  visitdatekey : Option Int
  referrerapplicationid : Option String
  marketingpageid : Option String
  views : Option Int
  viewingcontactid : Option String
  flag : Option String
  visits : Option Int
  durationsum : Option Rat
  durationavg : Option Rat
  comments : Option Int
  marketingpageidliked : Option String
deriving DecidableEq

/-- A raw row of the page inventory CSV (three columns carry embedded
spaces / dashes in their names and are renamed by the SELECT). -/
structure CsvPageRow where
  websitename : Option String
  websiteurl : Option String
  owningbusinessunit : Option String
  pagename : Option String
  fullpageurl : Option String
  sourcesystempageid : Option String
  marketingpageid : Option String
  theme : Option String
  topic : Option String
  pageurl : Option String
  exclude : Option String
  «Site name» : Option String
  «theme - Copy» : Option String
  «topic - Copy» : Option String
  template : Option String
  contentType : Option String
  pageLanguage : Option String
  newsCategory : Option String
  targetRegion : Option String
  targetOrganization : Option String
  cnt : Option Int
deriving DecidableEq

/-- A row of the page_inventory table (CREATE TABLE page_inventory). -/
structure PageRow where
  websitename : Option String
  websiteurl : Option String
  owningbusinessunit : Option String
  pagename : Option String
  fullpageurl : Option String
  sourcesystempageid : Option String
  marketingpageid : Option String
  theme : Option String
  topic : Option String
  pageurl : Option String
  exclude : Option String
  sitename : Option String
  theme_normalized : Option String
  topic_normalized : Option String
  template : Option String
  contenttype : Option String
  pagelanguage : Option String
  newscategory : Option String
  targetregion : Option String
  targetorganization : Option String
  cnt : Option Int
deriving DecidableEq

/-- A row of the employee_contact table, with the columns the aggregation
script reads (the table is loaded by an external step; its fields as used
are the join key and the two grouping attributes). -/
structure EmployeeRow where
  contactid : Option String
  employeeregion : Option String
  employeebusinessdivision : Option String
deriving DecidableEq

/-- A row of dim_date (create_date_dimension).  Every column of the
generating SELECT is non-null, so no field is an Option. -/
structure DimDateRow where
  datekey : Int
  date : Int
  year : Int
  quarter : Int
  quarter_name : String
  year_quarter : String
  month : Int
  month_name : String
  month_short : String
  year_month : String
  week_number : Int
  year_week : String
  day_of_month : Int
  day_of_year : Int
  day_of_week : Int
  day_name : String
  day_short : String
  is_weekend : Bool
  is_month_start : Bool
  is_month_end : Bool
  is_quarter_start : Bool
  is_quarter_end : Bool
  is_year_start : Bool
  is_year_end : Bool
deriving DecidableEq

/-! ## Calendar arithmetic

DuckDB stores a DATE as the number of days since 1970-01-01; every date the
pipeline generates lies after 1970, so day numbers are Nat here.  The
conversions are the standard civil calendar algorithms. -/

def isLeapYear (y : Nat) : Bool :=
  (y % 4 == 0 && y % 100 != 0) || y % 400 == 0

def daysInMonth (y m : Nat) : Nat :=
  if m = 2 then (if isLeapYear y then 29 else 28)
  else if m = 4 ∨ m = 6 ∨ m = 9 ∨ m = 11 then 30
  else 31

/-- Days since 1970-01-01 of the civil date (y, m, d), for y ≥ 1970. -/
def daysFromCivil (y m d : Nat) : Nat :=
  let yy := if m ≤ 2 then y - 1 else y
  let era := yy / 400
  let yoe := yy % 400
  let mp := if 2 < m then m - 3 else m + 9
  let doy := (153 * mp + 2) / 5 + d - 1
  let doe := yoe * 365 + yoe / 4 - yoe / 100 + doy
  era * 146097 + doe - 719468

/-- Civil date (y, m, d) of a day count since 1970-01-01 (for days after
1970, which keeps every quantity non-negative). -/
def civilFromDays (z : Nat) : Nat × Nat × Nat :=
  let zz := z + 719468
  let era := zz / 146097
  let doe := zz % 146097
  let yoe := (doe - doe / 1460 + doe / 36524 - doe / 146096) / 365
  let y0 := yoe + era * 400
  let doy := doe - (365 * yoe + yoe / 4 - yoe / 100)
  let mp := (5 * doy + 2) / 153
  let d := doy - (153 * mp + 2) / 5 + 1
  let m := if mp < 10 then mp + 3 else mp - 9
  (if m ≤ 2 then y0 + 1 else y0, m, d)

/-- ISODOW: 1 = Monday .. 7 = Sunday.  Day 0 (1970-01-01) was a Thursday. -/
def isoDayOfWeek (z : Nat) : Nat := (z + 3) % 7 + 1

/-- DAYOFYEAR: 1-based ordinal of the day within its year. -/
def dayOfYearOf (z : Nat) : Nat :=
  z - daysFromCivil (civilFromDays z).1 1 1 + 1

/-- The Thursday of the ISO week of day z (ISO weeks are identified by the
year and ordinal of their Thursday). -/
def isoThursday (z : Nat) : Nat := z + 4 - isoDayOfWeek z

/-- WEEKOFYEAR: ISO 8601 week number. -/
def weekOfYearOf (z : Nat) : Nat := (dayOfYearOf (isoThursday z) - 1) / 7 + 1

/-- ISOYEAR: the year owning the ISO week of day z. -/
def isoYearOf (z : Nat) : Nat := (civilFromDays (isoThursday z)).1

/-- STRFTIME %B month names. -/
def monthNameOf (m : Nat) : String :=
  match m with
  | 1 => "January" | 2 => "February" | 3 => "March" | 4 => "April"
  | 5 => "May" | 6 => "June" | 7 => "July" | 8 => "August"
  | 9 => "September" | 10 => "October" | 11 => "November" | 12 => "December"
  | _ => ""

/-- STRFTIME %b abbreviated month names. -/
def monthShortOf (m : Nat) : String :=
  match m with
  | 1 => "Jan" | 2 => "Feb" | 3 => "Mar" | 4 => "Apr"
  | 5 => "May" | 6 => "Jun" | 7 => "Jul" | 8 => "Aug"
  | 9 => "Sep" | 10 => "Oct" | 11 => "Nov" | 12 => "Dec"
  | _ => ""

/-- STRFTIME %A day names, indexed by ISODOW. -/
def dayNameOf (dow : Nat) : String :=
  match dow with
  | 1 => "Monday" | 2 => "Tuesday" | 3 => "Wednesday" | 4 => "Thursday"
  | 5 => "Friday" | 6 => "Saturday" | 7 => "Sunday"
  | _ => ""

/-- STRFTIME %a abbreviated day names, indexed by ISODOW. -/
def dayShortOf (dow : Nat) : String :=
  match dow with
  | 1 => "Mon" | 2 => "Tue" | 3 => "Wed" | 4 => "Thu"
  | 5 => "Fri" | 6 => "Sat" | 7 => "Sun"
  | _ => ""

/-- LPAD(CAST(n AS VARCHAR), 2, '0') for the two-digit fields. -/
def lpad2 (n : Nat) : String :=
  if n < 10 then "0" ++ toString n else toString n

/-- One row of dim_date, from a day number, with each column computed as the
generating SELECT of create_date_dimension computes it. -/
def mkDimDateRow (z : Nat) : DimDateRow :=
  let c := civilFromDays z
  let y := c.1
  let m := c.2.1
  let d := c.2.2
  let q := (m + 2) / 3
  let dow := isoDayOfWeek z
  { datekey := Int.ofNat (y * 10000 + m * 100 + d)
    date := Int.ofNat z
    year := Int.ofNat y
    quarter := Int.ofNat q
    quarter_name := "Q" ++ toString q
    year_quarter := "Q" ++ toString q ++ " " ++ toString y
    month := Int.ofNat m
    month_name := monthNameOf m
    month_short := monthShortOf m
    year_month := toString y ++ "-" ++ lpad2 m
    week_number := Int.ofNat (weekOfYearOf z)
    year_week := toString (isoYearOf z) ++ "-W" ++ lpad2 (weekOfYearOf z)
    day_of_month := Int.ofNat d
    day_of_year := Int.ofNat (dayOfYearOf z)
    day_of_week := Int.ofNat dow
    day_name := dayNameOf dow
    day_short := dayShortOf dow
    is_weekend := dow = 6 ∨ dow = 7
    is_month_start := d = 1
    is_month_end := d = daysInMonth y m
    is_quarter_start := (m = 1 ∨ m = 4 ∨ m = 7 ∨ m = 10) ∧ d = 1
    is_quarter_end := (m = 3 ∨ m = 6 ∨ m = 9 ∨ m = 12) ∧ d = daysInMonth y m
    is_year_start := m = 1 ∧ d = 1
    is_year_end := m = 12 ∧ d = 31 }

/-- The generate_series bounds of create_date_dimension. -/
def dimDateStartDay : Nat := daysFromCivil 2022 1 1

def dimDateEndDay : Nat := daysFromCivil 2040 12 31

/-- The dim_date table built by create_date_dimension: one row per day of
generate_series(DATE 2022-01-01, DATE 2040-12-31, INTERVAL 1 DAY), in date
order.  A pure value: the generation reads no other table. -/
def create_date_dimension : List DimDateRow :=
  (List.range (dimDateEndDay - dimDateStartDay + 1)).map
    (fun i => mkDimDateRow (dimDateStartDay + i))

/-- Length of a civil year. -/
def daysInYear (y : Nat) : Nat := if isLeapYear y then 366 else 365

/-- The day numbers of one civil year (used to reason about
create_date_dimension one year at a time). -/
def yearSpan (y : Nat) : List Nat :=
  List.range' (daysFromCivil y 1 1) (daysInYear y)

/-! ## Ingestion (ingest_data.py)

The database state: a table is `none` while it does not exist.  The
employee_contact table is loaded by an external collaborator and only
passed through by this script. -/

structure DBState where
  fact : Option (List FactRow)
  page_inventory : Option (List PageRow)
  dim_date : Option (List DimDateRow)
  employee_contact : Option (List EmployeeRow)
deriving DecidableEq

/-- The fact SELECT of ingest_data: renames the eleven fact_ columns. -/
def parseFact (rows : List CsvFactRow) : List FactRow :=
  rows.map (fun r =>
    { visitdatekey := r.fact_visitdatekey
      referrerapplicationid := r.fact_referrerapplicationid
      marketingpageid := r.fact_marketingPageId
      views := r.fact_views
      viewingcontactid := r.fact_viewingcontactid
      flag := r.fact_flag
      visits := r.fact_visits
      durationsum := r.fact_durationsum
      durationavg := r.fact_durationavg
      comments := r.fact_comments
      marketingpageidliked := r.fact_marketingPageIdliked })

/-- The page inventory SELECT: renames the columns with embedded spaces and
filters WHERE marketingpageid != 'Unknown' (three-valued: a NULL key is
dropped too). -/
def parseInventory (rows : List CsvPageRow) : List PageRow :=
  (rows.map (fun r =>
    ({ websitename := r.websitename
       websiteurl := r.websiteurl
       owningbusinessunit := r.owningbusinessunit
       pagename := r.pagename
       fullpageurl := r.fullpageurl
       sourcesystempageid := r.sourcesystempageid
       marketingpageid := r.marketingpageid
       theme := r.theme
       topic := r.topic
       pageurl := r.pageurl
       exclude := r.exclude
       sitename := r.«Site name»
       theme_normalized := r.«theme - Copy»
       topic_normalized := r.«topic - Copy»
       template := r.template
       contenttype := r.contentType
       pagelanguage := r.pageLanguage
       newscategory := r.newsCategory
       targetregion := r.targetRegion
       targetorganization := r.targetOrganization
       cnt := r.cnt } : PageRow))).filter
    (fun p => sqlTrue (sql3NeqLit p.marketingpageid "Unknown"))

/-- Error text of the DELETE that the incremental fact merge issues when the
staging MIN/MAX are NULL: the Python f-string then interpolates the literal
token None into the SQL, which fails to bind as a column reference, so the
statement raises before touching any row. -/
def nullRangeBindError : String :=
  "Binder Error: Referenced column None not found in FROM clause"

/-- The DELETE predicate of the incremental fact merge:
visitdatekey >= min AND visitdatekey <= max, in SQL three-valued logic
(a NULL visitdatekey is never selected for deletion). -/
def factDeleteHit (lo hi : Int) (r : FactRow) : Bool :=
  sqlTrue (sql3And (sql3GeInt r.visitdatekey lo) (sql3LeInt r.visitdatekey hi))

/-- Incremental fact merge (the non-full-refresh branch of ingest_data):
compute MIN/MAX of staging visitdatekey, DELETE the base rows the inclusive
range selects, INSERT all staging rows.  When MIN/MAX are NULL (empty
staging, or staging with only NULL dates) the DELETE statement itself
errors out, before any row of the base table is touched. -/
def mergeFactIncremental (base staging : List FactRow) : Except String (List FactRow) :=
  match sqlMinInt (staging.map (fun r => r.visitdatekey)),
        sqlMaxInt (staging.map (fun r => r.visitdatekey)) with
  | some lo, some hi =>
    .ok ((base.filter (fun r => !factDeleteHit lo hi r)) ++ staging)
  | _, _ => .error nullRangeBindError

/-- Incremental page inventory merge: DELETE base rows whose marketingpageid
is IN the staging keys, then INSERT all staging rows. -/
def mergeInventoryIncremental (base : List PageRow) (staging : List PageRow) : List PageRow :=
  (base.filter (fun r =>
    !sqlTrue (sql3In r.marketingpageid (staging.map (fun s => s.marketingpageid))))) ++ staging

/-! ## Key validation (validate_primary_keys) -/

/-- The page_inventory duplicate query: GROUP BY marketingpageid, keep
groups with COUNT(*) > 1, ORDER BY cnt DESC LIMIT 10. -/
def inventoryDupes (pages : List PageRow) : List (Option String × Nat) :=
  ((sortDescBy (fun g => g.2)
      ((groupBy (fun p => p.marketingpageid) pages).filterMap
        (fun g => if 1 < g.2.length then some (g.1, g.2.length) else none))).take 10)

/-- The composite key of the fact duplicate query, in the GROUP BY order. -/
def factCompositeKey (f : FactRow) : Option Int × Option String × Option String × Option String :=
  (f.visitdatekey, f.marketingpageid, f.viewingcontactid, f.referrerapplicationid)

/-- The fact duplicate query: GROUP BY the four-part composite key, keep
groups with COUNT(*) > 1, ORDER BY cnt DESC LIMIT 10. -/
def factDupes (fact : List FactRow) :
    List ((Option Int × Option String × Option String × Option String) × Nat) :=
  ((sortDescBy (fun g => g.2)
      ((groupBy factCompositeKey fact).filterMap
        (fun g => if 1 < g.2.length then some (g.1, g.2.length) else none))).take 10)

/-- The orphan diagnostic: fact rows whose marketingpageid finds no
page_inventory row under the SQL equality join (count of distinct orphan
pages, count of orphan rows).  Purely informational. -/
def orphanStats (fact : List FactRow) (pages : List PageRow) : Nat × Nat :=
  let orphans := fact.filter (fun f =>
    !(pages.any (fun p => sqlEqStr f.marketingpageid p.marketingpageid)))
  (countDistinct (orphans.map (fun f => f.marketingpageid)), orphans.length)

/-- validate_primary_keys: runs only SELECT statements over the current
state and returns the pass/fail boolean together with the (unchanged)
state.  all_valid starts true and is cleared by a non-empty duplicate
report; the orphan check never clears it. -/
def validate_primary_keys (s : DBState) : Bool × DBState :=
  let invDupes := inventoryDupes (s.page_inventory.getD [])
  let fDupes := factDupes (s.fact.getD [])
  let _orphans := orphanStats (s.fact.getD []) (s.page_inventory.getD [])
  (invDupes.isEmpty && fDupes.isEmpty, s)

/-! ## The two ingestion modes -/

/-- Full refresh: CREATE OR REPLACE both tables from the parsed CSVs,
rebuild dim_date, validate (read-only), proceed regardless. -/
def ingestFull (fcsv : List CsvFactRow) (pcsv : List CsvPageRow) (s : DBState) : DBState :=
  let s1 : DBState := { s with fact := some (parseFact fcsv) }
  let s2 : DBState := { s1 with page_inventory := some (parseInventory pcsv) }
  let s3 : DBState := { s2 with dim_date := some create_date_dimension }
  (validate_primary_keys s3).2

/-- Incremental mode: CREATE TABLE IF NOT EXISTS, stage the CSV, merge;
a failing merge aborts the run with the state as the failed statement left
it.  On success the inventory merge, dim_date rebuild and (read-only)
validation follow. -/
def ingestIncremental (fcsv : List CsvFactRow) (pcsv : List CsvPageRow) (s : DBState) :
    Except (String × DBState) DBState :=
  let base := s.fact.getD []
  let s1 : DBState := { s with fact := some base }
  match mergeFactIncremental base (parseFact fcsv) with
  | .error e => .error (e, s1)
  | .ok newFact =>
    let s2 : DBState := { s1 with fact := some newFact }
    let s3 : DBState := { s2 with
      page_inventory := some
        (mergeInventoryIncremental (s2.page_inventory.getD []) (parseInventory pcsv)) }
    let s4 : DBState := { s3 with dim_date := some create_date_dimension }
    .ok (validate_primary_keys s4).2

/-- ingest_data, with full_refresh selecting the mode (parquet export is an
out-of-scope collaborator and is not modelled). -/
def ingest_data (full_refresh : Bool) (fcsv : List CsvFactRow) (pcsv : List CsvPageRow)
    (s : DBState) : Except (String × DBState) DBState :=
  if full_refresh then .ok (ingestFull fcsv pcsv s) else ingestIncremental fcsv pcsv s

/-! ## Aggregation (create_aggregations.py)

Each rollup is CREATE TABLE AS SELECT ... FROM fact JOIN dim_date ON
visitdatekey = datekey LEFT JOIN page_inventory ON matching marketingpageid
(the employee rollup adds LEFT JOIN employee_contact) GROUP BY the listed
columns. -/

/-- A row of fact JOIN dim_date LEFT JOIN page_inventory. -/
structure JoinedRow3 where
  f : FactRow
  d : DimDateRow
  p : Option PageRow
deriving DecidableEq

/-- A joined row with the additional LEFT JOIN employee_contact. -/
structure JoinedRow4 where
  f : FactRow
  d : DimDateRow
  p : Option PageRow
  e : Option EmployeeRow
deriving DecidableEq

/-- The inner join fact JOIN dim_date ON f.visitdatekey = d.datekey: a fact
row with no matching datekey (in particular a NULL visitdatekey) yields no
joined row. -/
def joinFactDate (fact : List FactRow) (dim : List DimDateRow) : List (FactRow × DimDateRow) :=
  fact.flatMap (fun f =>
    (dim.filter (fun d => decide (f.visitdatekey = some d.datekey))).map (fun d => (f, d)))

/-- LEFT JOIN page_inventory ON f.marketingpageid = p.marketingpageid:
a row with no match is padded with a NULL page side. -/
def leftJoinPage (l : List (FactRow × DimDateRow)) (pages : List PageRow) : List JoinedRow3 :=
  l.flatMap (fun fd =>
    let ms := pages.filter (fun p => sqlEqStr fd.1.marketingpageid p.marketingpageid)
    if ms.isEmpty then [⟨fd.1, fd.2, none⟩] else ms.map (fun p => ⟨fd.1, fd.2, some p⟩))

/-- LEFT JOIN employee_contact ON f.viewingcontactid = e.contactid. -/
def leftJoinEmployee (l : List JoinedRow3) (emp : List EmployeeRow) : List JoinedRow4 :=
  l.flatMap (fun j =>
    let ms := emp.filter (fun e => sqlEqStr j.f.viewingcontactid e.contactid)
    if ms.isEmpty then [⟨j.f, j.d, j.p, none⟩] else ms.map (fun e => ⟨j.f, j.d, j.p, some e⟩))

/-- The joined relation all three page-grain rollups read. -/
def joinDailyRows (fact : List FactRow) (pages : List PageRow) (dim : List DimDateRow) :
    List JoinedRow3 :=
  leftJoinPage (joinFactDate fact dim) pages

/-! ### Shared metric derivations (identical SELECT expressions in all four
rollups, applied to the fact side of each group) -/

/-- CASE WHEN marketingpageidliked IS NOT NULL AND marketingpageidliked !=
empty-string THEN 1 ELSE 0 END. -/
def likedCase (x : Option String) : Int :=
  match x with
  | some s => if s = "" then 0 else 1
  | none => 0

/-- Whether a fact row carries a like marker (the claim-side reading of the
CASE expression: marker non-null and not the empty string). -/
def likedB (f : FactRow) : Bool :=
  match f.marketingpageidliked with
  | some s => !decide (s = "")
  | none => false

def aggUniqueVisitors (fs : List FactRow) : Nat :=
  countDistinct (fs.map (fun f => f.viewingcontactid))

def aggViews (fs : List FactRow) : Option Int :=
  sqlSumInt (fs.map (fun f => f.views))

def aggVisits (fs : List FactRow) : Option Int :=
  sqlSumInt (fs.map (fun f => f.visits))

def aggLikes (fs : List FactRow) : Option Int :=
  sqlSumInt (fs.map (fun f => some (likedCase f.marketingpageidliked)))

def aggComments (fs : List FactRow) : Option Int :=
  sqlSumInt (fs.map (fun f => f.comments))

def aggEngagements (fs : List FactRow) : Option Int :=
  sqlAddInt (aggLikes fs) (aggComments fs)

def aggDurationsum (fs : List FactRow) : Option Rat :=
  sqlSumRat (fs.map (fun f => f.durationsum))

def aggPagesViewed (fs : List FactRow) : Nat :=
  countDistinct (fs.map (fun f => f.marketingpageid))

/-! ### fact_daily -/

/-- The GROUP BY tuple of fact_daily, in the order of the statement. -/
structure DailyKey where
  datekey : Int
  date : Int
  year : Int
  quarter : Int
  month : Int
  month_name : String
  year_month : String
  week_number : Int
  year_week : String
  day_of_week : Int
  day_name : String
  is_weekend : Bool
  marketingpageid : Option String
  pagename : Option String
  websitename : Option String
  theme : Option String
  topic : Option String
  contenttype : Option String
  template : Option String
deriving DecidableEq

def dailyKey (j : JoinedRow3) : DailyKey :=
  { datekey := j.d.datekey, date := j.d.date, year := j.d.year, quarter := j.d.quarter,
    month := j.d.month, month_name := j.d.month_name, year_month := j.d.year_month,
    week_number := j.d.week_number, year_week := j.d.year_week,
    day_of_week := j.d.day_of_week, day_name := j.d.day_name, is_weekend := j.d.is_weekend,
    marketingpageid := j.f.marketingpageid,
    pagename := j.p.bind (fun p => p.pagename),
    websitename := j.p.bind (fun p => p.websitename),
    theme := j.p.bind (fun p => p.theme),
    topic := j.p.bind (fun p => p.topic),
    contenttype := j.p.bind (fun p => p.contenttype),
    template := j.p.bind (fun p => p.template) }

structure FactDailyRow where
  datekey : Int
  date : Int
  year : Int
  quarter : Int
  month : Int
  month_name : String
  year_month : String
  week_number : Int
  year_week : String
  day_of_week : Int
  day_name : String
  is_weekend : Bool
  marketingpageid : Option String
  pagename : Option String
  websitename : Option String
  theme : Option String
  topic : Option String
  contenttype : Option String
  template : Option String
  unique_visitors : Nat
  views : Option Int
  visits : Option Int
  likes : Option Int
  comments : Option Int
  engagements : Option Int
  durationsum : Option Rat
  row_count : Nat
deriving DecidableEq

def mkFactDailyRow (k : DailyKey) (g : List JoinedRow3) : FactDailyRow :=
  let fs := g.map (fun j => j.f)
  { datekey := k.datekey, date := k.date, year := k.year, quarter := k.quarter,
    month := k.month, month_name := k.month_name, year_month := k.year_month,
    week_number := k.week_number, year_week := k.year_week,
    day_of_week := k.day_of_week, day_name := k.day_name, is_weekend := k.is_weekend,
    marketingpageid := k.marketingpageid, pagename := k.pagename,
    websitename := k.websitename, theme := k.theme, topic := k.topic,
    contenttype := k.contenttype, template := k.template,
    unique_visitors := aggUniqueVisitors fs,
    views := aggViews fs, visits := aggVisits fs, likes := aggLikes fs,
    comments := aggComments fs, engagements := aggEngagements fs,
    durationsum := aggDurationsum fs, row_count := g.length }

/-- CREATE TABLE fact_daily AS the grouped SELECT. -/
def factDaily (fact : List FactRow) (pages : List PageRow) (dim : List DimDateRow) :
    List FactDailyRow :=
  (groupBy dailyKey (joinDailyRows fact pages dim)).map (fun kg => mkFactDailyRow kg.1 kg.2)

/-! ### fact_daily_website -/

/-- COALESCE(p.websitename, literal Unknown): the default applies both when
the page join missed and when the matched row has a NULL websitename. -/
def coalesceWebsite (p : Option PageRow) : String :=
  (p.bind (fun pr => pr.websitename)).getD "Unknown"

structure WebsiteKey where
  datekey : Int
  date : Int
  year : Int
  quarter : Int
  month : Int
  month_name : String
  year_month : String
  week_number : Int
  year_week : String
  day_of_week : Int
  day_name : String
  is_weekend : Bool
  websitename : String
deriving DecidableEq

def websiteKey (j : JoinedRow3) : WebsiteKey :=
  { datekey := j.d.datekey, date := j.d.date, year := j.d.year, quarter := j.d.quarter,
    month := j.d.month, month_name := j.d.month_name, year_month := j.d.year_month,
    week_number := j.d.week_number, year_week := j.d.year_week,
    day_of_week := j.d.day_of_week, day_name := j.d.day_name, is_weekend := j.d.is_weekend,
    websitename := coalesceWebsite j.p }

structure FactDailyWebsiteRow where
  datekey : Int
  date : Int
  year : Int
  quarter : Int
  month : Int
  month_name : String
  year_month : String
  week_number : Int
  year_week : String
  day_of_week : Int
  day_name : String
  is_weekend : Bool
  websitename : String
  unique_visitors : Nat
  views : Option Int
  visits : Option Int
  likes : Option Int
  comments : Option Int
  engagements : Option Int
  durationsum : Option Rat
  pages_viewed : Nat
  row_count : Nat
deriving DecidableEq

def mkFactDailyWebsiteRow (k : WebsiteKey) (g : List JoinedRow3) : FactDailyWebsiteRow :=
  let fs := g.map (fun j => j.f)
  { datekey := k.datekey, date := k.date, year := k.year, quarter := k.quarter,
    month := k.month, month_name := k.month_name, year_month := k.year_month,
    week_number := k.week_number, year_week := k.year_week,
    day_of_week := k.day_of_week, day_name := k.day_name, is_weekend := k.is_weekend,
    websitename := k.websitename,
    unique_visitors := aggUniqueVisitors fs,
    views := aggViews fs, visits := aggVisits fs, likes := aggLikes fs,
    comments := aggComments fs, engagements := aggEngagements fs,
    durationsum := aggDurationsum fs, pages_viewed := aggPagesViewed fs,
    row_count := g.length }

def factDailyWebsite (fact : List FactRow) (pages : List PageRow) (dim : List DimDateRow) :
    List FactDailyWebsiteRow :=
  (groupBy websiteKey (joinDailyRows fact pages dim)).map
    (fun kg => mkFactDailyWebsiteRow kg.1 kg.2)

/-! ### fact_monthly -/

structure MonthlyKey where
  year : Int
  quarter : Int
  month : Int
  month_name : String
  year_month : String
  marketingpageid : Option String
  pagename : Option String
  websitename : Option String
  theme : Option String
  topic : Option String
  contenttype : Option String
  template : Option String
deriving DecidableEq

def monthlyKey (j : JoinedRow3) : MonthlyKey :=
  { year := j.d.year, quarter := j.d.quarter, month := j.d.month,
    month_name := j.d.month_name, year_month := j.d.year_month,
    marketingpageid := j.f.marketingpageid,
    pagename := j.p.bind (fun p => p.pagename),
    websitename := j.p.bind (fun p => p.websitename),
    theme := j.p.bind (fun p => p.theme),
    topic := j.p.bind (fun p => p.topic),
    contenttype := j.p.bind (fun p => p.contenttype),
    template := j.p.bind (fun p => p.template) }

structure FactMonthlyRow where
  year : Int
  quarter : Int
  month : Int
  month_name : String
  year_month : String
  month_start : Option Int
  marketingpageid : Option String
  pagename : Option String
  websitename : Option String
  theme : Option String
  topic : Option String
  contenttype : Option String
  template : Option String
  unique_visitors : Nat
  views : Option Int
  visits : Option Int
  likes : Option Int
  comments : Option Int
  engagements : Option Int
  durationsum : Option Rat
  days_in_period : Nat
  row_count : Nat
deriving DecidableEq

def mkFactMonthlyRow (k : MonthlyKey) (g : List JoinedRow3) : FactMonthlyRow :=
  let fs := g.map (fun j => j.f)
  { year := k.year, quarter := k.quarter, month := k.month,
    month_name := k.month_name, year_month := k.year_month,
    month_start := sqlMinInt (g.map (fun j => some j.d.date)),
    marketingpageid := k.marketingpageid, pagename := k.pagename,
    websitename := k.websitename, theme := k.theme, topic := k.topic,
    contenttype := k.contenttype, template := k.template,
    unique_visitors := aggUniqueVisitors fs,
    views := aggViews fs, visits := aggVisits fs, likes := aggLikes fs,
    comments := aggComments fs, engagements := aggEngagements fs,
    durationsum := aggDurationsum fs,
    days_in_period := countDistinct (g.map (fun j => some j.d.date)),
    row_count := g.length }

def factMonthly (fact : List FactRow) (pages : List PageRow) (dim : List DimDateRow) :
    List FactMonthlyRow :=
  (groupBy monthlyKey (joinDailyRows fact pages dim)).map
    (fun kg => mkFactMonthlyRow kg.1 kg.2)

/-! ### fact_daily_employee (only built when employee_contact exists) -/

def coalesceRegion (e : Option EmployeeRow) : String :=
  (e.bind (fun er => er.employeeregion)).getD "Unknown"

def coalesceDivision (e : Option EmployeeRow) : String :=
  (e.bind (fun er => er.employeebusinessdivision)).getD "Unknown"

structure EmployeeKey where
  datekey : Int
  date : Int
  year : Int
  quarter : Int
  month : Int
  month_name : String
  year_month : String
  week_number : Int
  year_week : String
  day_of_week : Int
  day_name : String
  is_weekend : Bool
  websitename : String
  employeeregion : String
  employeebusinessdivision : String
deriving DecidableEq

def employeeKey (j : JoinedRow4) : EmployeeKey :=
  { datekey := j.d.datekey, date := j.d.date, year := j.d.year, quarter := j.d.quarter,
    month := j.d.month, month_name := j.d.month_name, year_month := j.d.year_month,
    week_number := j.d.week_number, year_week := j.d.year_week,
    day_of_week := j.d.day_of_week, day_name := j.d.day_name, is_weekend := j.d.is_weekend,
    websitename := coalesceWebsite j.p,
    employeeregion := coalesceRegion j.e,
    employeebusinessdivision := coalesceDivision j.e }

structure FactDailyEmployeeRow where
  datekey : Int
  date : Int
  year : Int
  quarter : Int
  month : Int
  month_name : String
  year_month : String
  week_number : Int
  year_week : String
  day_of_week : Int
  day_name : String
  is_weekend : Bool
  websitename : String
  employeeregion : String
  employeebusinessdivision : String
  unique_visitors : Nat
  views : Option Int
  visits : Option Int
  likes : Option Int
  comments : Option Int
  engagements : Option Int
  durationsum : Option Rat
  pages_viewed : Nat
  row_count : Nat
deriving DecidableEq

def mkFactDailyEmployeeRow (k : EmployeeKey) (g : List JoinedRow4) : FactDailyEmployeeRow :=
  let fs := g.map (fun j => j.f)
  { datekey := k.datekey, date := k.date, year := k.year, quarter := k.quarter,
    month := k.month, month_name := k.month_name, year_month := k.year_month,
    week_number := k.week_number, year_week := k.year_week,
    day_of_week := k.day_of_week, day_name := k.day_name, is_weekend := k.is_weekend,
    websitename := k.websitename, employeeregion := k.employeeregion,
    employeebusinessdivision := k.employeebusinessdivision,
    unique_visitors := aggUniqueVisitors fs,
    views := aggViews fs, visits := aggVisits fs, likes := aggLikes fs,
    comments := aggComments fs, engagements := aggEngagements fs,
    durationsum := aggDurationsum fs, pages_viewed := aggPagesViewed fs,
    row_count := g.length }

def factDailyEmployee (fact : List FactRow) (pages : List PageRow) (dim : List DimDateRow)
    (emp : List EmployeeRow) : List FactDailyEmployeeRow :=
  (groupBy employeeKey (leftJoinEmployee (joinDailyRows fact pages dim) emp)).map
    (fun kg => mkFactDailyEmployeeRow kg.1 kg.2)

/-- The source database the aggregation script attaches read-only. -/
structure SourceDB where
  fact : List FactRow
  page_inventory : List PageRow
  dim_date : List DimDateRow
  employee_contact : Option (List EmployeeRow)

/-- The freshly created aggregation database. -/
structure AggDB where
  fact_daily : List FactDailyRow
  fact_daily_website : List FactDailyWebsiteRow
  fact_monthly : List FactMonthlyRow
  fact_daily_employee : Option (List FactDailyEmployeeRow)
  dim_date : List DimDateRow
  page_inventory : List PageRow
  employee_contact : Option (List EmployeeRow)

/-- create_aggregations: rebuilds the four rollups from the attached source
(fact_daily_employee only when the employee_contact table exists) and copies
the reference tables.  The source is never written. -/
def create_aggregations (src : SourceDB) : AggDB :=
  { fact_daily := factDaily src.fact src.page_inventory src.dim_date
    fact_daily_website := factDailyWebsite src.fact src.page_inventory src.dim_date
    fact_monthly := factMonthly src.fact src.page_inventory src.dim_date
    fact_daily_employee := src.employee_contact.map
      (fun emp => factDailyEmployee src.fact src.page_inventory src.dim_date emp)
    dim_date := src.dim_date
    page_inventory := src.page_inventory
    employee_contact := src.employee_contact }

/-- Sum of the row_count column of fact_daily. -/
def sumRowCounts (t : List FactDailyRow) : Nat :=
  (t.map (fun o => o.row_count)).sum

/-! ## Claim-side definitions

Plain (two-valued) readings of the claims, to be compared with the
embedded SQL semantics, plus lookup images of a fact row through the joins
(meaningful once the dimension-side keys are unique). -/

/-- Plain reading of the incremental delete window: the row has a (non-null)
visitdatekey inside the inclusive range. -/
def insideRangeB (lo hi : Int) (r : FactRow) : Bool :=
  match r.visitdatekey with
  | some v => decide (lo ≤ v) && decide (v ≤ hi)
  | none => false

/-- Whether a fact row has a matching dim_date row. -/
def dimMatch (dim : List DimDateRow) (f : FactRow) : Bool :=
  dim.any (fun d => decide (f.visitdatekey = some d.datekey))

def dimLookup (dim : List DimDateRow) (f : FactRow) : Option DimDateRow :=
  dim.find? (fun d => decide (f.visitdatekey = some d.datekey))

def pageLookup (pages : List PageRow) (f : FactRow) : Option PageRow :=
  pages.find? (fun p => sqlEqStr f.marketingpageid p.marketingpageid)

def employeeLookup (emp : List EmployeeRow) (f : FactRow) : Option EmployeeRow :=
  emp.find? (fun e => sqlEqStr f.viewingcontactid e.contactid)

/-- The joined image of a fact row when dim_date and page keys are unique:
none when the date join drops the row. -/
def dailyImage (pages : List PageRow) (dim : List DimDateRow) (f : FactRow) :
    Option JoinedRow3 :=
  (dimLookup dim f).map (fun d => ⟨f, d, pageLookup pages f⟩)

/-- The joined image through the employee rollup's three joins. -/
def employeeImage (pages : List PageRow) (dim : List DimDateRow) (emp : List EmployeeRow)
    (f : FactRow) : Option JoinedRow4 :=
  (dimLookup dim f).map (fun d => ⟨f, d, pageLookup pages f, employeeLookup emp f⟩)

def dailyKeyOfRow (o : FactDailyRow) : DailyKey :=
  { datekey := o.datekey, date := o.date, year := o.year, quarter := o.quarter,
    month := o.month, month_name := o.month_name, year_month := o.year_month,
    week_number := o.week_number, year_week := o.year_week,
    day_of_week := o.day_of_week, day_name := o.day_name, is_weekend := o.is_weekend,
    marketingpageid := o.marketingpageid, pagename := o.pagename,
    websitename := o.websitename, theme := o.theme, topic := o.topic,
    contenttype := o.contenttype, template := o.template }

def websiteKeyOfRow (o : FactDailyWebsiteRow) : WebsiteKey :=
  { datekey := o.datekey, date := o.date, year := o.year, quarter := o.quarter,
    month := o.month, month_name := o.month_name, year_month := o.year_month,
    week_number := o.week_number, year_week := o.year_week,
    day_of_week := o.day_of_week, day_name := o.day_name, is_weekend := o.is_weekend,
    websitename := o.websitename }

def monthlyKeyOfRow (o : FactMonthlyRow) : MonthlyKey :=
  { year := o.year, quarter := o.quarter, month := o.month,
    month_name := o.month_name, year_month := o.year_month,
    marketingpageid := o.marketingpageid, pagename := o.pagename,
    websitename := o.websitename, theme := o.theme, topic := o.topic,
    contenttype := o.contenttype, template := o.template }

def employeeKeyOfRow (o : FactDailyEmployeeRow) : EmployeeKey :=
  { datekey := o.datekey, date := o.date, year := o.year, quarter := o.quarter,
    month := o.month, month_name := o.month_name, year_month := o.year_month,
    week_number := o.week_number, year_week := o.year_week,
    day_of_week := o.day_of_week, day_name := o.day_name, is_weekend := o.is_weekend,
    websitename := o.websitename, employeeregion := o.employeeregion,
    employeebusinessdivision := o.employeebusinessdivision }

/-- A base fact row maps to the fact_daily output row o when its joined
image exists and carries o's group key. -/
def mapsToDaily (pages : List PageRow) (dim : List DimDateRow) (o : FactDailyRow)
    (f : FactRow) : Bool :=
  (dailyImage pages dim f).any (fun j => decide (dailyKey j = dailyKeyOfRow o))

def mapsToWebsite (pages : List PageRow) (dim : List DimDateRow) (o : FactDailyWebsiteRow)
    (f : FactRow) : Bool :=
  (dailyImage pages dim f).any (fun j => decide (websiteKey j = websiteKeyOfRow o))

def mapsToMonthly (pages : List PageRow) (dim : List DimDateRow) (o : FactMonthlyRow)
    (f : FactRow) : Bool :=
  (dailyImage pages dim f).any (fun j => decide (monthlyKey j = monthlyKeyOfRow o))

def mapsToEmployee (pages : List PageRow) (dim : List DimDateRow) (emp : List EmployeeRow)
    (o : FactDailyEmployeeRow) (f : FactRow) : Bool :=
  (employeeImage pages dim emp f).any (fun j => decide (employeeKey j = employeeKeyOfRow o))

/-- Spec-side enumeration of the calendar days of one year, oldest first. -/
def yearTriples (y : Nat) : List (Int × Int × Int) :=
  (List.range' 1 12).flatMap (fun m =>
    (List.range' 1 (daysInMonth y m)).map (fun d => (Int.ofNat y, Int.ofNat m, Int.ofNat d)))

/-- Spec-side enumeration of every calendar day from 2022-01-01 through
2040-12-31, each exactly once, in order. -/
def specAllDates : List (Int × Int × Int) :=
  (List.range' 2022 19).flatMap yearTriples

/-- Spec-side day of week from the civil triple alone (Sakamoto's method,
folded to ISO numbering 1 = Monday .. 7 = Sunday): an independent
computation to check the is_weekend flag against. -/
def sakamotoDow (y m d : Nat) : Nat :=
  let t := [0, 3, 2, 5, 0, 3, 5, 1, 4, 6, 2, 4]
  let yy := if m < 3 then y - 1 else y
  let w := (yy + yy / 4 + yy / 400 + t.getD (m - 1) 0 + d - yy / 100) % 7
  if w = 0 then 7 else w

/-- Sakamoto day-of-week of a dim_date row, read off its own year, month
and day_of_month columns. -/
def rowSpecDow (r : DimDateRow) : Nat :=
  sakamotoDow r.year.toNat r.month.toNat r.day_of_month.toNat

/-- Total days covered by n consecutive years starting at y. -/
def spanDaysTotal (y n : Nat) : Nat :=
  ((List.range' y n).map daysInYear).sum

/-- Restriction of a fact table to the rows the dim_date inner join keeps. -/
def dateMatched (dim : List DimDateRow) (fact : List FactRow) : List FactRow :=
  fact.filter (fun f => dimMatch dim f)

/-! ## Concrete rows for witnesses and counterexamples -/

/-- A fact row with the given key fields; the remaining columns are fixed
plausible values. -/
def mkFactRow (dk : Option Int) (pid visitor liked : Option String) (cm : Option Int) :
    FactRow :=
  { visitdatekey := dk, referrerapplicationid := some "app", marketingpageid := pid,
    views := some 1, viewingcontactid := visitor, flag := none, visits := some 1,
    durationsum := none, durationavg := none, comments := cm,
    marketingpageidliked := liked }

/-- A page row with the given key and display name. -/
def mkPageRow (pid name : Option String) : PageRow :=
  { websitename := some "W", websiteurl := none, owningbusinessunit := none,
    pagename := name, fullpageurl := none, sourcesystempageid := none,
    marketingpageid := pid, theme := none, topic := none, pageurl := none,
    exclude := none, sitename := none, theme_normalized := none,
    topic_normalized := none, template := none, contenttype := none,
    pagelanguage := none, newscategory := none, targetregion := none,
    targetorganization := none, cnt := none }

/-- A raw inventory CSV row with the given key and display name. -/
def mkCsvPageRow (pid name : Option String) : CsvPageRow :=
  { websitename := some "W", websiteurl := none, owningbusinessunit := none,
    pagename := name, fullpageurl := none, sourcesystempageid := none,
    marketingpageid := pid, theme := none, topic := none, pageurl := none,
    exclude := none, «Site name» := none, «theme - Copy» := none,
    «topic - Copy» := none, template := none, contentType := none,
    pageLanguage := none, newsCategory := none, targetRegion := none,
    targetOrganization := none, cnt := none }

/-- A dim_date row with the given datekey and fixed filler attributes, for
statements that quantify over an arbitrary dim_date table. -/
def mkTestDimRow (dk : Int) : DimDateRow :=
  { datekey := dk, date := dk, year := 1, quarter := 1, quarter_name := "",
    year_quarter := "", month := 1, month_name := "", month_short := "",
    year_month := "", week_number := 1, year_week := "", day_of_month := 1,
    day_of_year := 1, day_of_week := 1, day_name := "", day_short := "",
    is_weekend := false, is_month_start := false, is_month_end := false,
    is_quarter_start := false, is_quarter_end := false, is_year_start := false,
    is_year_end := false }

def w1base : List FactRow :=
  [mkFactRow (some 5) (some "P") (some "u") none (some 0),
   mkFactRow (some 11) (some "P") (some "u") none (some 0),
   mkFactRow none (some "P") (some "u") none (some 0)]

def w1staging : List FactRow :=
  [mkFactRow (some 10) (some "P") (some "v") none (some 1),
   mkFactRow (some 12) (some "Q") (some "v") none (some 1)]

def w2state : DBState :=
  { fact := some [mkFactRow (some 7) (some "P") (some "u") none (some 0)],
    page_inventory := some [], dim_date := none, employee_contact := none }

def w3base : List PageRow :=
  [mkPageRow (some "P1") (some "old name"), mkPageRow (some "P2") (some "two")]

def w3csv : List CsvPageRow :=
  [mkCsvPageRow (some "P1") (some "new name"), mkCsvPageRow (some "P3") (some "three")]

def w4dim : List DimDateRow := [mkTestDimRow 77]

def w4fact : List FactRow :=
  [mkFactRow (some 77) (some "P") (some "a") (some "yes") (some 1),
   mkFactRow (some 77) (some "P") (some "b") (some "") (some 2),
   mkFactRow (some 77) (some "P") (some "c") none (some 4),
   mkFactRow (some 77) (some "P") (some "d") (some "liked") (some 0),
   mkFactRow (some 77) (some "P") (some "a") none (some 0)]

def w5fact : List FactRow :=
  [mkFactRow (some 77) (some "P") (some "a") (some "yes") (some 1),
   mkFactRow (some 77) (some "P") (some "b") none (some 2),
   mkFactRow none (some "P") (some "c") none (some 4)]

def w5pages : List PageRow := [mkPageRow (some "P") (some "page")]

def w6fact : List FactRow :=
  [mkFactRow (some 77) (some "X") (some "a") none (some 1)]

def w6pages : List PageRow := [mkPageRow (some "P") (some "page")]

/-- Counterexample input: a single fact row dated one day before the fixed
calendar of dim_date begins. -/
def cexOrphanFact : List FactRow :=
  [mkFactRow (some 20211231) (some "X") (some "a") none (some 1)]

/-- Counterexample input: one fact row on the first calendar day, joined
against a page_inventory holding the same page twice. -/
def cexDupFact : List FactRow :=
  [mkFactRow (some 20220101) (some "P") (some "a") none (some 1)]

def cexDupPages : List PageRow :=
  [mkPageRow (some "P") (some "page"), mkPageRow (some "P") (some "page")]

def w1insideRow : FactRow := mkFactRow (some 11) (some "P") (some "u") none (some 0)

def w1outsideRow : FactRow := mkFactRow (some 5) (some "P") (some "u") none (some 0)

def w1nullRow : FactRow := mkFactRow none (some "P") (some "u") none (some 0)

/-- The expected result of the witness merge of C1. -/
def w1result : List FactRow :=
  [mkFactRow (some 5) (some "P") (some "u") none (some 0),
   mkFactRow none (some "P") (some "u") none (some 0),
   mkFactRow (some 10) (some "P") (some "v") none (some 1),
   mkFactRow (some 12) (some "Q") (some "v") none (some 1)]


/-- The single group of the C4 witness aggregation. -/
def w4group : List JoinedRow3 := joinDailyRows w4fact [] w4dim

/-- The single output row of the C4 witness aggregation. -/
def w4row : FactDailyRow :=
  mkFactDailyRow
    (dailyKey ⟨mkFactRow (some 77) (some "P") (some "a") (some "yes") (some 1),
      mkTestDimRow 77, none⟩) w4group


/-- YYYYMMDD encoding of a calendar triple (spec side). -/
def tripleKey (t : Int × Int × Int) : Int := t.1 * 10000 + t.2.1 * 100 + t.2.2

/-- Strictly increasing check for an Int list (used to certify that a
per-year date enumeration repeats no element). -/
def strictIncB : List Int → Bool
  | [] => true
  | [_] => true
  | a :: b :: t => decide (a < b) && strictIncB (b :: t)


/-- The single output row of the C5 witness aggregation. -/
def w5row : FactDailyRow :=
  mkFactDailyRow
    (dailyKey ⟨mkFactRow (some 77) (some "P") (some "a") (some "yes") (some 1),
      mkTestDimRow 77, some (mkPageRow (some "P") (some "page"))⟩)
    (joinDailyRows w5fact w5pages [mkTestDimRow 77])


/-! ## Generic list lemmas -/

theorem count_filter_eq {α : Type} [DecidableEq α] (p : α → Bool) (a : α) (l : List α) :
    (l.filter p).count a = if p a = true then l.count a else 0 := by
  induction l with
  | nil => simp
  | cons x xs ih =>
    rw [List.filter_cons]
    by_cases hx : p x = true
    · rw [if_pos hx, List.count_cons, List.count_cons, ih]
      by_cases hax : x == a
      · have hpa : p a = true := by
          have hxa : x = a := by simpa using hax
          rwa [hxa] at hx
        simp [hax, hpa]
      · simp [hax]
    · rw [if_neg hx, ih]
      by_cases hax : x == a
      · have hxa : x = a := by simpa using hax
        subst hxa
        simp [hx]
      · simp [List.count_cons, hax]

theorem groupByGo_mem_eq {α κ : Type} [DecidableEq κ] (key : α → κ) (n : Nat) :
    ∀ (l : List α), l.length ≤ n → ∀ k g, (k, g) ∈ groupByGo key n l →
      (∃ x ∈ l, key x = k) ∧ g = l.filter (fun y => decide (key y = k)) := by
  induction n with
  | zero =>
    intro l hl k g hg
    match l with
    | [] => simp [groupByGo] at hg
  | succ n ih =>
    intro l hl k g hg
    match l with
    | [] => simp [groupByGo] at hg
    | x :: xs =>
      simp only [groupByGo, List.mem_cons] at hg
      rcases hg with h1 | h2
      · have hk : k = key x := (Prod.mk.injEq _ _ _ _ ▸ h1).1
        have hgg : g = x :: xs.filter (fun y => decide (key y = key x)) :=
          (Prod.mk.injEq _ _ _ _ ▸ h1).2
        subst hk
        refine ⟨⟨x, List.mem_cons_self x xs, rfl⟩, ?_⟩
        rw [hgg, List.filter_cons]
        simp
      · have hxsle : xs.length ≤ n := Nat.le_of_succ_le_succ hl
        have hlen : (xs.filter (fun y => !decide (key y = key x))).length ≤ n := by
          have := List.length_filter_le (fun y => !decide (key y = key x)) xs
          omega
        obtain ⟨⟨x', hx', hk'⟩, hg'⟩ := ih _ hlen k g h2
        have hxmem : x' ∈ xs := (List.mem_filter.mp hx').1
        have hne : ¬ key x' = key x := by
          have h2f := (List.mem_filter.mp hx').2
          simpa using h2f
        refine ⟨⟨x', List.mem_cons_of_mem x hxmem, hk'⟩, ?_⟩
        rw [hg', List.filter_filter, List.filter_cons]
        have hxk : (decide (key x = k) : Bool) = false := by
          subst hk'
          simp only [decide_eq_false_iff_not]
          intro h
          exact hne h.symm
        rw [hxk]
        simp only [Bool.false_eq_true, if_false]
        apply List.filter_congr
        intro y _
        by_cases hy : key y = k
        · have hkx : ¬k = key x := hk' ▸ hne
          simp [hy, hkx]
        · simp [hy]

theorem groupBy_mem_eq {α κ : Type} [DecidableEq κ] (key : α → κ) (l : List α)
    (k : κ) (g : List α) (h : (k, g) ∈ groupBy key l) :
    (∃ x ∈ l, key x = k) ∧ g = l.filter (fun y => decide (key y = k)) :=
  groupByGo_mem_eq key l.length l (Nat.le_refl _) k g h

theorem groupByGo_complete {α κ : Type} [DecidableEq κ] (key : α → κ) (n : Nat) :
    ∀ (l : List α), l.length ≤ n → ∀ x ∈ l, ∃ g, (key x, g) ∈ groupByGo key n l := by
  induction n with
  | zero =>
    intro l hl x hx
    match l with
    | [] => cases hx
  | succ n ih =>
    intro l hl x hx
    match l with
    | [] => cases hx
    | y :: ys =>
      by_cases hk : key x = key y
      · refine ⟨y :: ys.filter (fun z => decide (key z = key y)), ?_⟩
        simp only [groupByGo, List.mem_cons]
        left
        rw [hk]
      · have hxy : x ∈ ys := by
          rcases List.mem_cons.mp hx with h | h
          · exact absurd (congrArg key h) hk
          · exact h
        have hmem : x ∈ ys.filter (fun z => !decide (key z = key y)) := by
          simp [List.mem_filter, hxy, hk]
        have hlen : (ys.filter (fun z => !decide (key z = key y))).length ≤ n := by
          have h1 := List.length_filter_le (fun z => !decide (key z = key y)) ys
          have h2 : ys.length ≤ n := Nat.le_of_succ_le_succ hl
          omega
        obtain ⟨g, hg⟩ := ih _ hlen x hmem
        refine ⟨g, ?_⟩
        simp only [groupByGo, List.mem_cons]
        right
        exact hg

theorem groupBy_complete {α κ : Type} [DecidableEq κ] (key : α → κ) (l : List α)
    (x : α) (hx : x ∈ l) : ∃ g, (key x, g) ∈ groupBy key l :=
  groupByGo_complete key l.length l (Nat.le_refl _) x hx

theorem length_filter_partition {α : Type} (p : α → Bool) (l : List α) :
    (l.filter p).length + (l.filter (fun a => !p a)).length = l.length := by
  induction l with
  | nil => rfl
  | cons x xs ih =>
    simp only [List.filter_cons]
    cases hx : p x <;> simp <;> omega

theorem groupByGo_sum_lengths {α κ : Type} [DecidableEq κ] (key : α → κ) (n : Nat) :
    ∀ (l : List α), l.length ≤ n →
      ((groupByGo key n l).map (fun kg => kg.2.length)).sum = l.length := by
  induction n with
  | zero =>
    intro l hl
    match l with
    | [] => rfl
  | succ n ih =>
    intro l hl
    match l with
    | [] => rfl
    | x :: xs =>
      have hxsle : xs.length ≤ n := Nat.le_of_succ_le_succ hl
      have hlen : (xs.filter (fun y => !decide (key y = key x))).length ≤ n := by
        have := List.length_filter_le (fun y => !decide (key y = key x)) xs
        omega
      have hpart := length_filter_partition (fun y => decide (key y = key x)) xs
      simp only [groupByGo, List.map_cons, List.sum_cons, ih _ hlen, List.length_cons]
      omega

theorem groupBy_sum_lengths {α κ : Type} [DecidableEq κ] (key : α → κ) (l : List α) :
    ((groupBy key l).map (fun kg => kg.2.length)).sum = l.length :=
  groupByGo_sum_lengths key l.length l (Nat.le_refl _)

theorem groupBy_nonempty {α κ : Type} [DecidableEq κ] (key : α → κ) (l : List α)
    (k : κ) (g : List α) (h : (k, g) ∈ groupBy key l) : g ≠ [] := by
  obtain ⟨⟨x, hx, hk⟩, hg⟩ := groupBy_mem_eq key l k g h
  intro hnil
  rw [hnil] at hg
  have hmem : x ∈ l.filter (fun y => decide (key y = k)) := by
    simp [List.mem_filter, hx, hk]
  rw [← hg] at hmem
  cases hmem

/-! ## SQL bridge lemmas -/

theorem factDeleteHit_eq_insideRange (lo hi : Int) (r : FactRow) :
    factDeleteHit lo hi r = insideRangeB lo hi r := by
  unfold factDeleteHit insideRangeB sql3GeInt sql3LeInt sql3And sqlTrue
  cases h : r.visitdatekey with
  | none => simp
  | some v => by_cases h1 : lo ≤ v <;> by_cases h2 : v ≤ hi <;> simp [h1, h2]

theorem parseInventory_keys_not_none (raw : List CsvPageRow) :
    ∀ p ∈ parseInventory raw, p.marketingpageid ≠ none := by
  intro p hp
  unfold parseInventory at hp
  have h := (List.mem_filter.mp hp).2
  cases hmp : p.marketingpageid with
  | none =>
    rw [hmp] at h
    simp [sqlTrue, sql3NeqLit] at h
  | some s => simp [hmp]

theorem sql3In_true_iff (x : Option String) (ys : List (Option String))
    (hys : ∀ y ∈ ys, y ≠ none) : sqlTrue (sql3In x ys) = true ↔ x ∈ ys := by
  unfold sqlTrue sql3In
  cases x with
  | none =>
    by_cases hy : ys.isEmpty
    · have : ys = [] := List.isEmpty_iff.mp hy
      subst this
      simp
    · simp [hy]
      intro hmem
      exact hys none hmem rfl
  | some v =>
    by_cases h1 : ys.any (fun y => decide (y = some v)) = true
    · simp only [h1, if_pos]
      obtain ⟨y, hy, hyv⟩ := List.any_eq_true.mp h1
      have : y = some v := by simpa using hyv
      subst this
      simp [hy]
    · have h2 : ys.any (fun y => decide (y = none)) = false := by
        rw [List.any_eq_false]
        intro y hy
        simp [hys y hy]
      simp only [h1, h2, if_neg, Bool.false_eq_true, if_false]
      constructor
      · intro hc
        simp at hc
      · intro hmem
        exact absurd (List.any_eq_true.mpr ⟨some v, hmem, by simp⟩) h1

/-! ## C1 -/

/-- C1: incremental fact merge is a date-window replacement.  With the
staging MIN and MAX defined, every multiset count of the merged table is:
staging rows unconditionally, plus the prior base rows whose visitdatekey
does not fall inside the inclusive window (rows with a NULL visitdatekey
fall outside every window and are preserved). -/
theorem fact_merge_date_window (base staging : List FactRow) (lo hi : Int)
    (result : List FactRow)
    (hlo : sqlMinInt (staging.map (fun r => r.visitdatekey)) = some lo)
    (hhi : sqlMaxInt (staging.map (fun r => r.visitdatekey)) = some hi)
    (hok : mergeFactIncremental base staging = Except.ok result) :
    (∀ r : FactRow, insideRangeB lo hi r = true → result.count r = staging.count r) ∧
    (∀ r : FactRow, insideRangeB lo hi r = false →
      result.count r = base.count r + staging.count r) := by
  have hres : result = (base.filter (fun r => !factDeleteHit lo hi r)) ++ staging := by
    unfold mergeFactIncremental at hok
    rw [hlo, hhi] at hok
    injection hok with h
    exact h.symm
  constructor <;> intro r hr <;>
    rw [hres, List.count_append, count_filter_eq, factDeleteHit_eq_insideRange, hr] <;> simp

/-- C1 witness at a concrete merge: dates 10..12 replace the window, the
date-5 row and the NULL-dated row survive, the date-11 row is deleted. -/
theorem fact_merge_date_window_witness :
    w1result.count w1insideRow = w1staging.count w1insideRow ∧
    w1result.count w1outsideRow = w1base.count w1outsideRow + w1staging.count w1outsideRow ∧
    w1result.count w1nullRow = w1base.count w1nullRow + w1staging.count w1nullRow :=
  ⟨(fact_merge_date_window w1base w1staging 10 12 w1result rfl rfl rfl).1 w1insideRow rfl,
   (fact_merge_date_window w1base w1staging 10 12 w1result rfl rfl rfl).2 w1outsideRow rfl,
   (fact_merge_date_window w1base w1staging 10 12 w1result rfl rfl rfl).2 w1nullRow rfl⟩

/-! ## C2 -/

/-- C2: with an empty parsed staging set the incremental run errors out at
the DELETE statement (whose SQL text holds the unbound token None), leaving
the fact table rows untouched (only CREATE TABLE IF NOT EXISTS ran). -/
theorem empty_staging_aborts (s : DBState) (fcsv : List CsvFactRow) (pcsv : List CsvPageRow)
    (h : parseFact fcsv = []) :
    ingestIncremental fcsv pcsv s =
      Except.error (nullRangeBindError, { s with fact := some (s.fact.getD []) }) := by
  unfold ingestIncremental mergeFactIncremental
  rw [h]
  rfl

/-- C2 witness: an empty fact CSV on a populated state. -/
theorem empty_staging_aborts_witness :
    ingestIncremental [] [] w2state =
      Except.error (nullRangeBindError, { w2state with fact := some (w2state.fact.getD []) }) :=
  empty_staging_aborts w2state [] [] rfl

/-! ## C3 -/

/-- C3: incremental page-inventory merge is an upsert by key: counts of the
merged table are the parsed staging rows plus exactly those base rows whose
marketingpageid does not appear among the staging keys. -/
theorem page_upsert_by_key (base : List PageRow) (raw : List CsvPageRow) :
    ∀ r : PageRow,
      (r.marketingpageid ∈ (parseInventory raw).map (fun s => s.marketingpageid) →
        (mergeInventoryIncremental base (parseInventory raw)).count r =
          (parseInventory raw).count r) ∧
      (r.marketingpageid ∉ (parseInventory raw).map (fun s => s.marketingpageid) →
        (mergeInventoryIncremental base (parseInventory raw)).count r =
          base.count r + (parseInventory raw).count r) := by
  intro r
  have hkeys : ∀ y ∈ (parseInventory raw).map (fun s => s.marketingpageid), y ≠ none := by
    intro y hy
    obtain ⟨p, hp, hpy⟩ := List.mem_map.mp hy
    rw [← hpy]
    exact parseInventory_keys_not_none raw p hp
  unfold mergeInventoryIncremental
  constructor <;> intro hr <;> rw [List.count_append, count_filter_eq]
  · have hb : sqlTrue (sql3In r.marketingpageid
        ((parseInventory raw).map (fun s => s.marketingpageid))) = true :=
      (sql3In_true_iff _ _ hkeys).mpr hr
    rw [hb]
    simp
  · have hb : sqlTrue (sql3In r.marketingpageid
        ((parseInventory raw).map (fun s => s.marketingpageid))) = false := by
      rw [← Bool.not_eq_true]
      intro hc
      exact hr ((sql3In_true_iff _ _ hkeys).mp hc)
    rw [hb]
    simp

/-! ## C8 -/

/-- C8: full-refresh ingestion replaces the three base tables with pure
functions of the CSVs alone, so a second identical run reproduces the same
state byte for byte. -/
theorem full_refresh_idempotent (fcsv : List CsvFactRow) (pcsv : List CsvPageRow)
    (s : DBState) :
    ingestFull fcsv pcsv (ingestFull fcsv pcsv s) = ingestFull fcsv pcsv s := rfl

/-! ## C9 -/

theorem length_insertDescBy {α : Type} (meas : α → Nat) (x : α) (l : List α) :
    (insertDescBy meas x l).length = l.length + 1 := by
  induction l with
  | nil => rfl
  | cons y ys ih =>
    unfold insertDescBy
    by_cases h : meas y ≤ meas x <;> simp [h, ih]

theorem length_sortDescBy {α : Type} (meas : α → Nat) (l : List α) :
    (sortDescBy meas l).length = l.length := by
  induction l with
  | nil => rfl
  | cons y ys ih =>
    unfold sortDescBy
    rw [length_insertDescBy, ih, List.length_cons]

theorem dupes_nonempty_iff {α κ : Type} [DecidableEq κ] (key : α → κ) (l : List α) :
    ((sortDescBy (fun g => g.2) ((groupBy key l).filterMap
        (fun g => if 1 < g.2.length then some (g.1, g.2.length) else none))).take 10 ≠ [] ↔
      ∃ k, 1 < l.countP (fun x => decide (key x = k))) := by
  have htake : ∀ (m : List (κ × Nat)), m.take 10 = [] ↔ m = [] := by
    intro m
    cases m with
    | nil => simp
    | cons a as => simp [List.take]
  have hsort : ∀ (m : List (κ × Nat)),
      sortDescBy (fun g => g.2) m = [] ↔ m = [] := by
    intro m
    constructor
    · intro h
      have := length_sortDescBy (fun g : κ × Nat => g.2) m
      rw [h] at this
      exact List.length_eq_zero.mp this.symm
    · intro h
      rw [h]
      rfl
  rw [Ne, htake, hsort, List.filterMap_eq_nil_iff]
  constructor
  · intro h
    push_neg at h
    obtain ⟨g, hg, hne⟩ := h
    have hlen : 1 < g.2.length := by
      by_contra hc
      exact hne (by simp [hc])
    obtain ⟨⟨x, hx, hk⟩, hfil⟩ := groupBy_mem_eq key l g.1 g.2 hg
    refine ⟨g.1, ?_⟩
    rw [List.countP_eq_length_filter]
    rw [← hfil]
    exact hlen
  · intro ⟨k, hk⟩
    intro hall
    rw [List.countP_eq_length_filter] at hk
    have hne : l.filter (fun x => decide (key x = k)) ≠ [] := by
      intro hc
      rw [hc] at hk
      simp at hk
    obtain ⟨x, hx⟩ := List.exists_mem_of_ne_nil _ hne
    have hxl : x ∈ l := (List.mem_filter.mp hx).1
    have hxk : key x = k := by
      have := (List.mem_filter.mp hx).2
      simpa using this
    obtain ⟨g, hg⟩ := groupBy_complete key l x hxl
    have := hall (key x, g) hg
    obtain ⟨⟨x', hx', hk'⟩, hfil⟩ := groupBy_mem_eq key l (key x) g hg
    have hglen : 1 < g.length := by
      rw [hfil, hxk]
      exact hk
    simp [hglen] at this

/-- C9: the key validator mutates nothing; its boolean is false exactly when
page_inventory has a duplicated marketingpageid or fact has a duplicated
four-part composite key (orphans never affect it); and the ingest pipeline's
resulting state is a function of the inputs alone, independent of the
validation outcome. -/
theorem validator_observe_only (s : DBState) :
    (validate_primary_keys s).2 = s ∧
    ((validate_primary_keys s).1 = false ↔
      (∃ k, 1 < (s.page_inventory.getD []).countP (fun p => decide (p.marketingpageid = k))) ∨
      (∃ c, 1 < (s.fact.getD []).countP (fun f => decide (factCompositeKey f = c)))) ∧
    (∀ fcsv pcsv, ingestFull fcsv pcsv s =
      { s with fact := some (parseFact fcsv),
               page_inventory := some (parseInventory pcsv),
               dim_date := some create_date_dimension }) := by
  refine ⟨rfl, ?_, fun _ _ => rfl⟩
  unfold validate_primary_keys inventoryDupes factDupes
  rw [Bool.and_eq_false_iff]
  rw [List.isEmpty_eq_false, List.isEmpty_eq_false]
  rw [dupes_nonempty_iff (fun p : PageRow => p.marketingpageid) (s.page_inventory.getD [])]
  rw [dupes_nonempty_iff factCompositeKey (s.fact.getD [])]


/-! ## C4 -/

theorem sum_likedCase_eq_countP (fs : List FactRow) :
    (fs.map (fun f => likedCase f.marketingpageidliked)).sum = (fs.countP likedB : Int) := by
  induction fs with
  | nil => rfl
  | cons x xs ih =>
    rw [List.map_cons, List.sum_cons, ih, List.countP_cons]
    unfold likedCase likedB
    cases hx : x.marketingpageidliked with
    | none => simp
    | some s =>
      by_cases hs : s = ""
      · simp [hs]
      · simp [hs]
        omega

theorem aggLikes_eq_countP (fs : List FactRow) (h : fs ≠ []) :
    aggLikes fs = some ((fs.countP likedB : Nat) : Int) := by
  have hcomp : ∀ gs : List FactRow,
      (gs.map (fun f => some (likedCase f.marketingpageidliked))).filterMap id
        = gs.map (fun f => likedCase f.marketingpageidliked) := by
    intro gs
    induction gs with
    | nil => rfl
    | cons x xs ih =>
      have hstep : List.filterMap id (some (likedCase x.marketingpageidliked) ::
          (xs.map (fun f => some (likedCase f.marketingpageidliked)))) =
          likedCase x.marketingpageidliked ::
            List.filterMap id (xs.map (fun f => some (likedCase f.marketingpageidliked))) := rfl
      rw [List.map_cons, hstep, ih, List.map_cons]
  show (if ((fs.map (fun f => some (likedCase f.marketingpageidliked))).filterMap id).isEmpty
        = true
      then none
      else some ((fs.map (fun f => some (likedCase f.marketingpageidliked))).filterMap id).sum)
    = some ((fs.countP likedB : Nat) : Int)
  rw [hcomp fs]
  rw [if_neg (by simpa [List.isEmpty_eq_false] using h)]
  rw [sum_likedCase_eq_countP]

/-- C4: in every group of each of the four rollup tables, likes is the count
of group rows whose liked marker is non-null and non-empty (a row count, not
a sum of any numeric column), and engagements is likes plus SUM(comments). -/
theorem likes_and_engagements (fact : List FactRow) (pages : List PageRow)
    (dim : List DimDateRow) (emp : List EmployeeRow) :
    (∀ o ∈ factDaily fact pages dim,
      ∃ kg ∈ groupBy dailyKey (joinDailyRows fact pages dim),
        o = mkFactDailyRow kg.1 kg.2 ∧
        o.likes = some (((kg.2.map (fun j => j.f)).countP likedB : Nat) : Int) ∧
        o.engagements = sqlAddInt o.likes (aggComments (kg.2.map (fun j => j.f)))) ∧
    (∀ o ∈ factDailyWebsite fact pages dim,
      ∃ kg ∈ groupBy websiteKey (joinDailyRows fact pages dim),
        o = mkFactDailyWebsiteRow kg.1 kg.2 ∧
        o.likes = some (((kg.2.map (fun j => j.f)).countP likedB : Nat) : Int) ∧
        o.engagements = sqlAddInt o.likes (aggComments (kg.2.map (fun j => j.f)))) ∧
    (∀ o ∈ factMonthly fact pages dim,
      ∃ kg ∈ groupBy monthlyKey (joinDailyRows fact pages dim),
        o = mkFactMonthlyRow kg.1 kg.2 ∧
        o.likes = some (((kg.2.map (fun j => j.f)).countP likedB : Nat) : Int) ∧
        o.engagements = sqlAddInt o.likes (aggComments (kg.2.map (fun j => j.f)))) ∧
    (∀ o ∈ factDailyEmployee fact pages dim emp,
      ∃ kg ∈ groupBy employeeKey (leftJoinEmployee (joinDailyRows fact pages dim) emp),
        o = mkFactDailyEmployeeRow kg.1 kg.2 ∧
        o.likes = some (((kg.2.map (fun j => j.f)).countP likedB : Nat) : Int) ∧
        o.engagements = sqlAddInt o.likes (aggComments (kg.2.map (fun j => j.f)))) := by
  refine ⟨?_, ?_, ?_, ?_⟩
  · intro o ho
    obtain ⟨kg, hkg, rfl⟩ := List.mem_map.mp ho
    refine ⟨kg, hkg, rfl, ?_, ?_⟩
    · have hne : kg.2 ≠ [] := groupBy_nonempty dailyKey _ kg.1 kg.2 hkg
      have : kg.2.map (fun j => j.f) ≠ [] := by simpa using hne
      exact aggLikes_eq_countP _ this
    · rfl
  · intro o ho
    obtain ⟨kg, hkg, rfl⟩ := List.mem_map.mp ho
    refine ⟨kg, hkg, rfl, ?_, ?_⟩
    · have hne : kg.2 ≠ [] := groupBy_nonempty websiteKey _ kg.1 kg.2 hkg
      have : kg.2.map (fun j => j.f) ≠ [] := by simpa using hne
      exact aggLikes_eq_countP _ this
    · rfl
  · intro o ho
    obtain ⟨kg, hkg, rfl⟩ := List.mem_map.mp ho
    refine ⟨kg, hkg, rfl, ?_, ?_⟩
    · have hne : kg.2 ≠ [] := groupBy_nonempty monthlyKey _ kg.1 kg.2 hkg
      have : kg.2.map (fun j => j.f) ≠ [] := by simpa using hne
      exact aggLikes_eq_countP _ this
    · rfl
  · intro o ho
    obtain ⟨kg, hkg, rfl⟩ := List.mem_map.mp ho
    refine ⟨kg, hkg, rfl, ?_, ?_⟩
    · have hne : kg.2 ≠ [] := groupBy_nonempty employeeKey _ kg.1 kg.2 hkg
      have : kg.2.map (fun j => j.f) ≠ [] := by simpa using hne
      exact aggLikes_eq_countP _ this
    · rfl

/-- C4 witness: the five-row group of the claim (two non-empty markers,
comments summing to 7) yields likes = 2 and engagements = 9. -/
theorem likes_and_engagements_witness :
    (∃ kg ∈ groupBy dailyKey (joinDailyRows w4fact [] w4dim),
      w4row = mkFactDailyRow kg.1 kg.2 ∧
      w4row.likes = some (((kg.2.map (fun j => j.f)).countP likedB : Nat) : Int) ∧
      w4row.engagements = sqlAddInt w4row.likes (aggComments (kg.2.map (fun j => j.f)))) ∧
    w4row.likes = some 2 ∧ w4row.engagements = some 9 :=
  ⟨(likes_and_engagements w4fact [] w4dim []).1 w4row (by decide),
   by decide, by decide⟩

/-! ## C10 -/

theorem joinFactDate_dateMatched (fact : List FactRow) (dim : List DimDateRow) :
    joinFactDate (dateMatched dim fact) dim = joinFactDate fact dim := by
  unfold dateMatched joinFactDate
  induction fact with
  | nil => rfl
  | cons f fs ih =>
    rw [List.filter_cons]
    by_cases hf : dimMatch dim f = true
    · rw [if_pos hf, List.flatMap_cons, List.flatMap_cons, ih]
    · have hf2 : dimMatch dim f = false := Bool.not_eq_true _ ▸ Bool.of_not_eq_true hf
      rw [if_neg hf]
      have hnil : dim.filter (fun d => decide (f.visitdatekey = some d.datekey)) = [] := by
        rw [List.filter_eq_nil_iff]
        intro d hd
        unfold dimMatch at hf2
        rw [List.any_eq_false] at hf2
        have := hf2 d hd
        simpa using this
      rw [List.flatMap_cons, hnil, ih]
      rfl

/-- C10: the dim_date join of every rollup is an inner join, so fact rows
whose visitdatekey matches no dim_date datekey contribute to none of the
four rollup tables (each table is unchanged when those rows are removed). -/
theorem date_orphans_excluded (fact : List FactRow) (pages : List PageRow)
    (dim : List DimDateRow) (emp : List EmployeeRow) :
    factDaily (dateMatched dim fact) pages dim = factDaily fact pages dim ∧
    factDailyWebsite (dateMatched dim fact) pages dim = factDailyWebsite fact pages dim ∧
    factMonthly (dateMatched dim fact) pages dim = factMonthly fact pages dim ∧
    factDailyEmployee (dateMatched dim fact) pages dim emp =
      factDailyEmployee fact pages dim emp := by
  have hj : joinDailyRows (dateMatched dim fact) pages dim = joinDailyRows fact pages dim := by
    unfold joinDailyRows
    rw [joinFactDate_dateMatched]
  exact ⟨by unfold factDaily; rw [hj], by unfold factDailyWebsite; rw [hj],
    by unfold factMonthly; rw [hj], by unfold factDailyEmployee; rw [hj]⟩

/-! ## Decomposing the generated calendar year by year

Kernel reduction over the full 6940-row dim_date is too deep; every fact
about it is therefore derived from a year-by-year decomposition. -/

theorem range'_append_add (s m n : Nat) :
    List.range' s m ++ List.range' (s + m) n = List.range' s (m + n) := by
  have h := List.range'_append s m n 1
  rw [Nat.one_mul] at h
  rw [Nat.add_comm m n]
  exact h

theorem length_flatMap_eq_sum {α β : Type} (l : List α) (f : α → List β) :
    (l.flatMap f).length = (l.map (fun a => (f a).length)).sum := by
  induction l with
  | nil => rfl
  | cons x xs ih => simp [List.flatMap_cons, ih]

theorem filter_flatMap_comm {α β : Type} (l : List α) (f : α → List β) (p : β → Bool) :
    (l.flatMap f).filter p = l.flatMap (fun a => (f a).filter p) := by
  induction l with
  | nil => rfl
  | cons x xs ih => simp [List.flatMap_cons, List.filter_append, ih]

theorem flatMap_congr_mem {α β : Type} (l : List α) (f g : α → List β)
    (h : ∀ a ∈ l, f a = g a) : l.flatMap f = l.flatMap g := by
  induction l with
  | nil => rfl
  | cons x xs ih =>
    rw [List.flatMap_cons, List.flatMap_cons, h x (List.mem_cons_self x xs),
      ih (fun a ha => h a (List.mem_cons_of_mem x ha))]

theorem yearStep_2022 : ∀ k, k < 19 →
    daysFromCivil (2022 + k + 1) 1 1 = daysFromCivil (2022 + k) 1 1 + daysInYear (2022 + k) := by
  decide

theorem spanDays_2022 : dimDateEndDay - dimDateStartDay + 1 = spanDaysTotal 2022 19 := by
  decide

theorem range'_yearSpans : ∀ (n y : Nat),
    (∀ k, k < n → daysFromCivil (y + k + 1) 1 1 = daysFromCivil (y + k) 1 1 + daysInYear (y + k)) →
    List.range' (daysFromCivil y 1 1) (spanDaysTotal y n) = (List.range' y n).flatMap yearSpan := by
  intro n
  induction n with
  | zero => intro y _; rfl
  | succ n ih =>
    intro y h
    have htot : spanDaysTotal y (n + 1) = daysInYear y + spanDaysTotal (y + 1) n := by
      unfold spanDaysTotal
      rw [List.range'_succ, List.map_cons, List.sum_cons]
    rw [htot, ← range'_append_add]
    have hstart : daysFromCivil y 1 1 + daysInYear y = daysFromCivil (y + 1) 1 1 := by
      have h0 := h 0 (Nat.succ_pos n)
      simpa using h0.symm
    rw [hstart]
    have hshift : ∀ k, k < n →
        daysFromCivil (y + 1 + k + 1) 1 1 = daysFromCivil (y + 1 + k) 1 1 + daysInYear (y + 1 + k) := by
      intro k hk
      have e1 : y + 1 + k = y + (k + 1) := by omega
      rw [e1]
      exact h (k + 1) (by omega)
    rw [ih (y + 1) hshift]
    rw [List.range'_succ, List.flatMap_cons]
    rfl

theorem create_date_dimension_eq_flatMap :
    create_date_dimension =
      (List.range' 2022 19).flatMap (fun y => (yearSpan y).map mkDimDateRow) := by
  unfold create_date_dimension
  rw [spanDays_2022]
  rw [show dimDateStartDay = daysFromCivil 2022 1 1 from rfl]
  have h1 : (List.range (spanDaysTotal 2022 19)).map
        (fun i => mkDimDateRow (daysFromCivil 2022 1 1 + i))
      = (List.range' (daysFromCivil 2022 1 1) (spanDaysTotal 2022 19)).map mkDimDateRow := by
    rw [List.range'_eq_map_range, List.map_map]
    rfl
  rw [h1, range'_yearSpans 19 2022 yearStep_2022]
  exact List.map_flatMap mkDimDateRow yearSpan (List.range' 2022 19)

theorem mem_cdd (r : DimDateRow) (hr : r ∈ create_date_dimension) :
    ∃ y ∈ List.range' 2022 19, ∃ z ∈ yearSpan y, r = mkDimDateRow z := by
  rw [create_date_dimension_eq_flatMap] at hr
  obtain ⟨y, hy, hmem⟩ := List.mem_flatMap.mp hr
  obtain ⟨z, hz, hzr⟩ := List.mem_map.mp hmem
  exact ⟨y, hy, z, hz, hzr.symm⟩

theorem cdd_forall_bool (P : DimDateRow → Bool)
    (h : ∀ y ∈ List.range' 2022 19, ∀ z ∈ yearSpan y, P (mkDimDateRow z) = true) :
    ∀ r ∈ create_date_dimension, P r = true := by
  intro r hr
  obtain ⟨y, hy, z, hz, rfl⟩ := mem_cdd r hr
  exact h y hy z hz

/-! ## C7 -/

set_option maxHeartbeats 800000000 in
theorem cdd_triples :
    create_date_dimension.map (fun r => (r.year, r.month, r.day_of_month)) = specAllDates := by
  have hball : ∀ y ∈ List.range' 2022 19,
      ((yearSpan y).map mkDimDateRow).map (fun r => (r.year, r.month, r.day_of_month))
        = yearTriples y := by decide
  rw [create_date_dimension_eq_flatMap, List.map_flatMap]
  exact flatMap_congr_mem _ _ _ hball

set_option maxHeartbeats 800000000 in
theorem cdd_row_checks : ∀ r ∈ create_date_dimension,
    ((decide ((20220101 : Int) ≤ r.datekey) &&
      (r.is_weekend == decide (rowSpecDow r = 6 ∨ rowSpecDow r = 7)) &&
      (r.is_year_start == (decide (r.month = 1) && decide (r.day_of_month = 1))) &&
      (r.is_year_end == (decide (r.month = 12) && decide (r.day_of_month = 31)))) = true) := by
  exact cdd_forall_bool _ (by decide)

theorem datekey_lower_bound : ∀ r ∈ create_date_dimension, (20220101 : Int) ≤ r.datekey := by
  intro r hr
  have h := cdd_row_checks r hr
  simp only [Bool.and_eq_true, decide_eq_true_eq] at h
  exact h.1.1.1

theorem cdd_weekend : ∀ r ∈ create_date_dimension,
    (r.is_weekend = true ↔ (rowSpecDow r = 6 ∨ rowSpecDow r = 7)) := by
  intro r hr
  have h := cdd_row_checks r hr
  simp only [Bool.and_eq_true, beq_iff_eq] at h
  rw [h.1.1.2]
  simp

theorem cdd_year_flag_fields : ∀ r ∈ create_date_dimension,
    (r.is_year_start = (decide (r.month = 1) && decide (r.day_of_month = 1)) ∧
     r.is_year_end = (decide (r.month = 12) && decide (r.day_of_month = 31))) := by
  intro r hr
  have h := cdd_row_checks r hr
  simp only [Bool.and_eq_true, beq_iff_eq] at h
  exact ⟨h.1.2, h.2⟩

theorem yearTriples_fst (y : Nat) (t : Int × Int × Int) (ht : t ∈ yearTriples y) :
    t.1 = Int.ofNat y := by
  unfold yearTriples at ht
  obtain ⟨m, _, hmem⟩ := List.mem_flatMap.mp ht
  obtain ⟨d, _, hdt⟩ := List.mem_map.mp hmem
  rw [← hdt]

theorem strictIncB_cons (a : Int) (l : List Int) (h : strictIncB (a :: l) = true) :
    strictIncB l = true := by
  cases l with
  | nil => rfl
  | cons b t =>
    unfold strictIncB at h
    rw [Bool.and_eq_true] at h
    exact h.2

theorem strictIncB_head_lt (a : Int) (l : List Int) (h : strictIncB (a :: l) = true) :
    ∀ y ∈ l, a < y := by
  induction l generalizing a with
  | nil => intro y hy; cases hy
  | cons b t ih =>
    unfold strictIncB at h
    rw [Bool.and_eq_true] at h
    have hab : a < b := by simpa using h.1
    intro y hy
    rcases List.mem_cons.mp hy with rfl | hyt
    · exact hab
    · exact lt_trans hab (ih b h.2 y hyt)

theorem nodup_of_strictIncB {α : Type} (g : α → Int) (l : List α)
    (h : strictIncB (l.map g) = true) : l.Nodup := by
  induction l with
  | nil => exact List.nodup_nil
  | cons x xs ih =>
    rw [List.map_cons] at h
    rw [List.nodup_cons]
    refine ⟨?_, ih (strictIncB_cons _ _ h)⟩
    intro hmem
    have hgx : g x ∈ xs.map g := List.mem_map.mpr ⟨x, hmem, rfl⟩
    exact lt_irrefl _ (strictIncB_head_lt _ _ h _ hgx)

set_option maxHeartbeats 800000000 in
theorem yearTriples_inc : ∀ y ∈ List.range' 2022 19,
    strictIncB ((yearTriples y).map tripleKey) = true := by decide

theorem yearTriples_nodup : ∀ y ∈ List.range' 2022 19, (yearTriples y).Nodup := by
  intro y hy
  exact nodup_of_strictIncB tripleKey _ (yearTriples_inc y hy)

theorem specAllDates_nodup : specAllDates.Nodup := by
  have key : ∀ ys : List Nat, ys.Nodup → (∀ y ∈ ys, (yearTriples y).Nodup) →
      (ys.flatMap yearTriples).Nodup := by
    intro ys
    induction ys with
    | nil => intro _ _; exact List.nodup_nil
    | cons y ys ih =>
      intro hnd hall
      rw [List.flatMap_cons, List.nodup_append]
      refine ⟨hall y (List.mem_cons_self y ys),
        ih (List.Nodup.of_cons hnd) (fun a ha => hall a (List.mem_cons_of_mem y ha)), ?_⟩
      intro t ht hmem2
      obtain ⟨y', hy', ht'⟩ := List.mem_flatMap.mp hmem2
      have h1 := yearTriples_fst y t ht
      have h2 := yearTriples_fst y' t ht'
      have hyy : y = y' := Int.ofNat.inj (h1.symm.trans h2)
      subst hyy
      exact (List.nodup_cons.mp hnd).1 hy'
  exact key _ (by simp [List.nodup_range']) yearTriples_nodup

theorem countP_flatMap {α β : Type} (l : List α) (f : α → List β) (p : β → Bool) :
    (l.flatMap f).countP p = (l.map (fun a => (f a).countP p)).sum := by
  induction l with
  | nil => rfl
  | cons x xs ih => simp [List.flatMap_cons, List.countP_append, ih]

theorem countP_congr_mem {α : Type} (p q : α → Bool) (l : List α)
    (h : ∀ a ∈ l, p a = q a) : l.countP p = l.countP q := by
  induction l with
  | nil => rfl
  | cons x xs ih =>
    rw [List.countP_cons, List.countP_cons, h x (List.mem_cons_self x xs),
      ih (fun a ha => h a (List.mem_cons_of_mem x ha))]

theorem countP_yearTriples_zero (y yy : Nat) (hne : yy ≠ y) (p1 p2 : Int) :
    (yearTriples yy).countP
      (fun t => decide (t.1 = (y : Int)) && (decide (t.2.1 = p1) && decide (t.2.2 = p2))) = 0 := by
  rw [List.countP_eq_zero]
  intro t ht
  have hf := yearTriples_fst yy t ht
  simp [hf, hne]

set_option maxHeartbeats 800000000 in
theorem countP_yearTriples_self : ∀ y ∈ List.range' 2022 19,
    ((yearTriples y).countP
      (fun t => decide (t.1 = (y : Int)) && (decide (t.2.1 = 1) && decide (t.2.2 = 1))) = 1) ∧
    ((yearTriples y).countP
      (fun t => decide (t.1 = (y : Int)) && (decide (t.2.1 = 12) && decide (t.2.2 = 31))) = 1) := by
  decide

theorem sum_map_eq_one_single {α : Type} (g : α → Nat) (ys : List α) (y : α)
    (hnd : ys.Nodup) (hy : y ∈ ys) (h0 : ∀ z ∈ ys, z ≠ y → g z = 0) (h1 : g y = 1) :
    (ys.map g).sum = 1 := by
  induction ys with
  | nil => cases hy
  | cons z zs ih =>
    rw [List.map_cons, List.sum_cons]
    by_cases hz : z = y
    · subst hz
      have hzero : (zs.map g).sum = 0 := by
        apply List.sum_eq_zero
        intro x hx
        obtain ⟨a, ha, rfl⟩ := List.mem_map.mp hx
        have hay : a ≠ z := fun hc => (List.nodup_cons.mp hnd).1 (hc ▸ ha)
        exact h0 a (List.mem_cons_of_mem _ ha) hay
      rw [h1, hzero]
    · have hyz : y ∈ zs := by
        rcases List.mem_cons.mp hy with h | h
        · exact absurd h.symm hz
        · exact h
      rw [h0 z (List.mem_cons_self _ _) hz, Nat.zero_add]
      exact ih (List.Nodup.of_cons hnd) hyz
        (fun a ha hay => h0 a (List.mem_cons_of_mem _ ha) hay)

theorem year_flag_triple_sums : ∀ y ∈ List.range' 2022 19,
    (specAllDates.countP
      (fun t => decide (t.1 = (y : Int)) && (decide (t.2.1 = 1) && decide (t.2.2 = 1))) = 1) ∧
    (specAllDates.countP
      (fun t => decide (t.1 = (y : Int)) && (decide (t.2.1 = 12) && decide (t.2.2 = 31))) = 1) := by
  intro y hy
  constructor
  · rw [show specAllDates = (List.range' 2022 19).flatMap yearTriples from rfl]
    rw [countP_flatMap]
    exact sum_map_eq_one_single _ _ y (by simp [List.nodup_range']) hy
      (fun z _ hzy => countP_yearTriples_zero y z hzy 1 1)
      ((countP_yearTriples_self y hy).1)
  · rw [show specAllDates = (List.range' 2022 19).flatMap yearTriples from rfl]
    rw [countP_flatMap]
    exact sum_map_eq_one_single _ _ y (by simp [List.nodup_range']) hy
      (fun z _ hzy => countP_yearTriples_zero y z hzy 12 31)
      ((countP_yearTriples_self y hy).2)

/-- C7: the generated date dimension is the calendar 2022-01-01 through
2040-12-31: its (year, month, day) triples are exactly the spec-side
enumeration of those days, each day exactly once (the enumeration has no
duplicate); is_weekend is true exactly when an independently computed ISO
day of week (Sakamoto's method) is 6 or 7; and each of the nineteen years
has exactly one is_year_start row and exactly one is_year_end row.
create_date_dimension is a closed definition: it reads no table and
returns the same rows on every run. -/
theorem date_dimension_calendar :
    (create_date_dimension.map (fun r => (r.year, r.month, r.day_of_month)) = specAllDates) ∧
    specAllDates.Nodup ∧
    (∀ r ∈ create_date_dimension,
      (r.is_weekend = true ↔ (rowSpecDow r = 6 ∨ rowSpecDow r = 7))) ∧
    (∀ y ∈ List.range' 2022 19,
      (create_date_dimension.filter
        (fun r => decide (r.year = (y : Int)) && r.is_year_start)).length = 1 ∧
      (create_date_dimension.filter
        (fun r => decide (r.year = (y : Int)) && r.is_year_end)).length = 1) := by
  refine ⟨cdd_triples, specAllDates_nodup, cdd_weekend, ?_⟩
  intro y hy
  have hts := year_flag_triple_sums y hy
  constructor
  · rw [← List.countP_eq_length_filter]
    rw [countP_congr_mem _
      (fun r => decide (r.year = (y : Int)) &&
        (decide (r.month = 1) && decide (r.day_of_month = 1))) _
      (fun r hr => by rw [(cdd_year_flag_fields r hr).1])]
    rw [show create_date_dimension.countP
        (fun r => decide (r.year = (y : Int)) &&
          (decide (r.month = 1) && decide (r.day_of_month = 1))) =
        (create_date_dimension.map (fun r => (r.year, r.month, r.day_of_month))).countP
        (fun t => decide (t.1 = (y : Int)) && (decide (t.2.1 = 1) && decide (t.2.2 = 1)))
      from by rw [List.countP_map]; rfl]
    rw [cdd_triples]
    exact hts.1
  · rw [← List.countP_eq_length_filter]
    rw [countP_congr_mem _
      (fun r => decide (r.year = (y : Int)) &&
        (decide (r.month = 12) && decide (r.day_of_month = 31))) _
      (fun r hr => by rw [(cdd_year_flag_fields r hr).2])]
    rw [show create_date_dimension.countP
        (fun r => decide (r.year = (y : Int)) &&
          (decide (r.month = 12) && decide (r.day_of_month = 31))) =
        (create_date_dimension.map (fun r => (r.year, r.month, r.day_of_month))).countP
        (fun t => decide (t.1 = (y : Int)) && (decide (t.2.1 = 12) && decide (t.2.2 = 31)))
      from by rw [List.countP_map]; rfl]
    rw [cdd_triples]
    exact hts.2

/-! ## C6 -/

theorem mkFactRow_visitdatekey (dk : Option Int) (pid visitor liked : Option String)
    (cm : Option Int) : (mkFactRow dk pid visitor liked cm).visitdatekey = dk := rfl

theorem orphan_join_nil : joinFactDate cexOrphanFact create_date_dimension = [] := by
  unfold joinFactDate cexOrphanFact
  rw [List.flatMap_cons, List.flatMap_nil]
  have hfil : create_date_dimension.filter
      (fun d => decide ((mkFactRow (some 20211231) (some "X") (some "a") none
        (some 1)).visitdatekey = some d.datekey)) = [] := by
    rw [List.filter_eq_nil_iff]
    intro d hd
    have hb := datekey_lower_bound d hd
    rw [mkFactRow_visitdatekey]
    simp only [decide_eq_true_eq]
    intro hc
    have : d.datekey = 20211231 := by
      have := Option.some.inj hc
      omega
    omega
  rw [hfil]
  rfl

theorem orphan_factDaily_nil : factDaily cexOrphanFact [] create_date_dimension = [] := by
  unfold factDaily joinDailyRows
  rw [orphan_join_nil]
  rfl

/-- C6 as stated is false on the code: a fact row whose page has no
inventory match but whose visitdatekey (20211231) precedes the generated
calendar is dropped from fact_daily entirely, rather than appearing with
null page attributes. -/
theorem orphan_row_counterexample :
    factDaily cexOrphanFact [] create_date_dimension = [] ∧
    cexOrphanFact = [mkFactRow (some 20211231) (some "X") (some "a") none (some 1)] ∧
    (mkFactRow (some 20211231) (some "X") (some "a") none (some 1)).marketingpageid =
      some "X" :=
  ⟨orphan_factDaily_nil, rfl, rfl⟩

/-- C6 amended: every fact row that the dim_date inner join keeps and whose
marketingpageid matches no page_inventory row is aggregated into fact_daily
with all six page-derived attributes null. -/
theorem orphan_pages_kept (fact : List FactRow) (pages : List PageRow) (dim : List DimDateRow)
    (f : FactRow) (hf : f ∈ fact)
    (hd : dimMatch dim f = true)
    (hnp : pages.all (fun p => !sqlEqStr f.marketingpageid p.marketingpageid) = true) :
    ∃ o ∈ factDaily fact pages dim,
      o.marketingpageid = f.marketingpageid ∧ o.pagename = none ∧ o.websitename = none ∧
      o.theme = none ∧ o.topic = none ∧ o.contenttype = none ∧ o.template = none := by
  unfold dimMatch at hd
  obtain ⟨d, hdmem, hdk⟩ := List.any_eq_true.mp hd
  have hdk' : f.visitdatekey = some d.datekey := of_decide_eq_true hdk
  have hfd : (f, d) ∈ joinFactDate fact dim := by
    unfold joinFactDate
    rw [List.mem_flatMap]
    refine ⟨f, hf, ?_⟩
    rw [List.mem_map]
    refine ⟨d, ?_, rfl⟩
    rw [List.mem_filter]
    exact ⟨hdmem, by simpa using hdk'⟩
  have hms : pages.filter (fun p => sqlEqStr f.marketingpageid p.marketingpageid) = [] := by
    rw [List.filter_eq_nil_iff]
    intro p hp
    have h2 := List.all_eq_true.mp hnp p hp
    simp only [Bool.not_eq_true'] at h2
    simp [h2]
  have hj : (⟨f, d, none⟩ : JoinedRow3) ∈ joinDailyRows fact pages dim := by
    unfold joinDailyRows leftJoinPage
    rw [List.mem_flatMap]
    refine ⟨(f, d), hfd, ?_⟩
    rw [hms]
    simp
  obtain ⟨g, hg⟩ := groupBy_complete dailyKey _ _ hj
  refine ⟨mkFactDailyRow (dailyKey ⟨f, d, none⟩) g, ?_, rfl, rfl, rfl, rfl, rfl, rfl, rfl⟩
  unfold factDaily
  rw [List.mem_map]
  exact ⟨(dailyKey ⟨f, d, none⟩, g), hg, rfl⟩

/-- C6 amended witness: a date-matched fact row for page X with an
inventory holding only page P appears in fact_daily with null attributes. -/
theorem orphan_pages_kept_witness :
    ∃ o ∈ factDaily w6fact w6pages w4dim,
      o.marketingpageid =
        (mkFactRow (some 77) (some "X") (some "a") none (some 1)).marketingpageid ∧
      o.pagename = none ∧ o.websitename = none ∧
      o.theme = none ∧ o.topic = none ∧ o.contenttype = none ∧ o.template = none :=
  orphan_pages_kept w6fact w6pages w4dim
    (mkFactRow (some 77) (some "X") (some "a") none (some 1))
    (by decide) (by decide) (by decide)

/-! ## C5: unique-key join bridges -/

theorem filter_eq_find_toList {α β : Type} [DecidableEq β] (g : α → β) (p : α → Bool)
    (l : List α) (hnd : (l.map g).Nodup)
    (hp : ∀ x y, p x = true → p y = true → g x = g y) :
    l.filter p = (l.find? p).toList := by
  induction l with
  | nil => rfl
  | cons x xs ih =>
    rw [List.map_cons, List.nodup_cons] at hnd
    by_cases hx : p x = true
    · rw [List.filter_cons_of_pos hx, List.find?_cons_of_pos xs hx]
      have htail : xs.filter p = [] := by
        rw [List.filter_eq_nil_iff]
        intro y hy hpy
        exact hnd.1 (List.mem_map.mpr ⟨y, hy, hp y x hpy hx⟩)
      rw [htail]
      rfl
    · rw [List.filter_cons_of_neg (by simpa using hx),
        List.find?_cons_of_neg xs (by simpa using hx)]
      exact ih hnd.2

theorem sqlEqStr_some (a b : Option String) (h : sqlEqStr a b = true) :
    ∃ s, a = some s ∧ b = some s := by
  unfold sqlEqStr at h
  cases a with
  | none => cases h
  | some x =>
    cases b with
    | none => cases h
    | some y =>
      refine ⟨x, rfl, ?_⟩
      have := of_decide_eq_true h
      rw [this]

theorem length_filterMap_countP {α β : Type} (im : α → Option β) (l : List α) :
    (l.filterMap im).length = l.countP (fun x => (im x).isSome) := by
  induction l with
  | nil => rfl
  | cons x xs ih =>
    rw [List.filterMap_cons, List.countP_cons]
    cases him : im x with
    | none => simp [him, ih]
    | some b => simp [ih]

theorem length_filter_filterMap {α β : Type} (im : α → Option β) (q : β → Bool) (l : List α) :
    ((l.filterMap im).filter q).length = l.countP (fun x => ((im x).any q)) := by
  induction l with
  | nil => rfl
  | cons x xs ih =>
    rw [List.filterMap_cons, List.countP_cons]
    cases him : im x with
    | none => simp [ih]
    | some b =>
      rw [List.filter_cons]
      by_cases hb : q b = true <;> simp [hb, ih]

theorem find?_isSome_any {α : Type} (p : α → Bool) (l : List α) :
    (l.find? p).isSome = l.any p := by
  induction l with
  | nil => rfl
  | cons x xs ih =>
    cases hx : p x with
    | true => rw [List.find?_cons_of_pos xs hx, List.any_cons, hx]; rfl
    | false =>
      rw [List.find?_cons_of_neg xs (by simp [hx]), List.any_cons, hx, ih]
      rfl

theorem joinFactDate_find (fact : List FactRow) (dim : List DimDateRow)
    (hnd : (dim.map (fun d => d.datekey)).Nodup) :
    joinFactDate fact dim =
      fact.filterMap (fun f => (dimLookup dim f).map (fun d => (f, d))) := by
  unfold joinFactDate dimLookup
  induction fact with
  | nil => rfl
  | cons f fs ih =>
    rw [List.flatMap_cons, List.filterMap_cons, ih]
    have hfil := filter_eq_find_toList (fun d : DimDateRow => d.datekey)
      (fun d => decide (f.visitdatekey = some d.datekey)) dim hnd
      (fun x y hx hy => by
        have hx' := of_decide_eq_true hx
        have hy' := of_decide_eq_true hy
        exact Option.some.inj (hx'.symm.trans hy'))
    rw [hfil]
    cases hfind : dim.find? (fun d => decide (f.visitdatekey = some d.datekey)) with
    | none => simp
    | some d => simp

theorem leftJoinPage_find (l : List (FactRow × DimDateRow)) (pages : List PageRow)
    (hnd : (pages.map (fun p => p.marketingpageid)).Nodup) :
    leftJoinPage l pages =
      l.map (fun fd => ⟨fd.1, fd.2, pageLookup pages fd.1⟩) := by
  unfold leftJoinPage pageLookup
  induction l with
  | nil => rfl
  | cons fd l' ih =>
    rw [List.flatMap_cons, List.map_cons, ih]
    have hfil := filter_eq_find_toList (fun p : PageRow => p.marketingpageid)
      (fun p => sqlEqStr fd.1.marketingpageid p.marketingpageid) pages hnd
      (fun x y hx hy => by
        obtain ⟨s, hs1, hs2⟩ := sqlEqStr_some _ _ hx
        obtain ⟨s', hs1', hs2'⟩ := sqlEqStr_some _ _ hy
        have hss : s = s' := Option.some.inj (hs1.symm.trans hs1')
        show x.marketingpageid = y.marketingpageid
        rw [hs2, hs2', hss])
    rw [hfil]
    cases hfind : pages.find? (fun p => sqlEqStr fd.1.marketingpageid p.marketingpageid) with
    | none => simp
    | some p => simp

theorem leftJoinEmployee_find (l : List JoinedRow3) (emp : List EmployeeRow)
    (hnd : (emp.map (fun e => e.contactid)).Nodup) :
    leftJoinEmployee l emp =
      l.map (fun j => ⟨j.f, j.d, j.p, employeeLookup emp j.f⟩) := by
  unfold leftJoinEmployee employeeLookup
  induction l with
  | nil => rfl
  | cons j l' ih =>
    rw [List.flatMap_cons, List.map_cons, ih]
    have hfil := filter_eq_find_toList (fun e : EmployeeRow => e.contactid)
      (fun e => sqlEqStr j.f.viewingcontactid e.contactid) emp hnd
      (fun x y hx hy => by
        obtain ⟨s, hs1, hs2⟩ := sqlEqStr_some _ _ hx
        obtain ⟨s', hs1', hs2'⟩ := sqlEqStr_some _ _ hy
        have hss : s = s' := Option.some.inj (hs1.symm.trans hs1')
        show x.contactid = y.contactid
        rw [hs2, hs2', hss])
    rw [hfil]
    cases hfind : emp.find? (fun e => sqlEqStr j.f.viewingcontactid e.contactid) with
    | none => simp
    | some e => simp

theorem filterMap_fun_congr {α β : Type} (l : List α) (f g : α → Option β)
    (h : ∀ a, f a = g a) : l.filterMap f = l.filterMap g := by
  have : f = g := funext h
  rw [this]

theorem joinDailyRows_image (fact : List FactRow) (pages : List PageRow)
    (dim : List DimDateRow)
    (hd : (dim.map (fun d => d.datekey)).Nodup)
    (hp : (pages.map (fun p => p.marketingpageid)).Nodup) :
    joinDailyRows fact pages dim = fact.filterMap (dailyImage pages dim) := by
  unfold joinDailyRows
  rw [joinFactDate_find fact dim hd, leftJoinPage_find _ pages hp, List.map_filterMap]
  apply filterMap_fun_congr
  intro f
  unfold dailyImage
  rw [Option.map_map]
  rfl

theorem joinEmployeeRows_image (fact : List FactRow) (pages : List PageRow)
    (dim : List DimDateRow) (emp : List EmployeeRow)
    (hd : (dim.map (fun d => d.datekey)).Nodup)
    (hp : (pages.map (fun p => p.marketingpageid)).Nodup)
    (he : (emp.map (fun e => e.contactid)).Nodup) :
    leftJoinEmployee (joinDailyRows fact pages dim) emp =
      fact.filterMap (employeeImage pages dim emp) := by
  rw [joinDailyRows_image fact pages dim hd hp, leftJoinEmployee_find _ emp he,
    List.map_filterMap]
  apply filterMap_fun_congr
  intro f
  unfold dailyImage employeeImage
  rw [Option.map_map]
  rfl

theorem dailyKeyOfRow_mk (k : DailyKey) (g : List JoinedRow3) :
    dailyKeyOfRow (mkFactDailyRow k g) = k := by
  cases k
  rfl

theorem websiteKeyOfRow_mk (k : WebsiteKey) (g : List JoinedRow3) :
    websiteKeyOfRow (mkFactDailyWebsiteRow k g) = k := by
  cases k
  rfl

theorem monthlyKeyOfRow_mk (k : MonthlyKey) (g : List JoinedRow3) :
    monthlyKeyOfRow (mkFactMonthlyRow k g) = k := by
  cases k
  rfl

theorem employeeKeyOfRow_mk (k : EmployeeKey) (g : List JoinedRow4) :
    employeeKeyOfRow (mkFactDailyEmployeeRow k g) = k := by
  cases k
  rfl

theorem countDistinct_le_length {α : Type} [DecidableEq α] (xs : List (Option α)) :
    countDistinct xs ≤ xs.length := by
  unfold countDistinct
  calc (xs.filterMap id).dedup.length ≤ (xs.filterMap id).length :=
        (List.dedup_sublist _).length_le
    _ ≤ xs.length := List.length_filterMap_le id xs

theorem groupBy_filterMap_count {α β κ : Type} [DecidableEq κ] (key : β → κ)
    (im : α → Option β) (l : List α) (k : κ) (g : List β)
    (h : (k, g) ∈ groupBy key (l.filterMap im)) :
    g.length = l.countP (fun x => ((im x).any (fun y => decide (key y = k)))) := by
  obtain ⟨-, hg⟩ := groupBy_mem_eq key (l.filterMap im) k g h
  rw [hg]
  exact length_filter_filterMap im (fun y => decide (key y = k)) l

/-- C5: with unique dimension-side keys (dim_date datekey, page_inventory
marketingpageid, employee_contact contactid), every output row of each of
the four rollups has row_count equal to the number of base fact rows whose
joined image carries that row's group key, unique_visitors ≤ row_count in
every output row, and the sum of row_count over fact_daily equals the
number of base fact rows whose visitdatekey matches some dim_date datekey
(not the total base row count: date orphans are dropped by the inner
join, and duplicate page keys multiply rows). -/
theorem rollup_row_counts (fact : List FactRow) (pages : List PageRow)
    (dim : List DimDateRow) (emp : List EmployeeRow)
    (hd : (dim.map (fun d => d.datekey)).Nodup)
    (hp : (pages.map (fun p => p.marketingpageid)).Nodup)
    (he : (emp.map (fun e => e.contactid)).Nodup) :
    (∀ o ∈ factDaily fact pages dim,
        o.row_count = fact.countP (mapsToDaily pages dim o) ∧
        o.unique_visitors ≤ o.row_count) ∧
    (∀ o ∈ factDailyWebsite fact pages dim,
        o.row_count = fact.countP (mapsToWebsite pages dim o) ∧
        o.unique_visitors ≤ o.row_count) ∧
    (∀ o ∈ factMonthly fact pages dim,
        o.row_count = fact.countP (mapsToMonthly pages dim o) ∧
        o.unique_visitors ≤ o.row_count) ∧
    (∀ o ∈ factDailyEmployee fact pages dim emp,
        o.row_count = fact.countP (mapsToEmployee pages dim emp o) ∧
        o.unique_visitors ≤ o.row_count) ∧
    sumRowCounts (factDaily fact pages dim) = fact.countP (fun f => dimMatch dim f) := by
  have himg := joinDailyRows_image fact pages dim hd hp
  have himge := joinEmployeeRows_image fact pages dim emp hd hp he
  refine ⟨?_, ?_, ?_, ?_, ?_⟩
  · intro o ho
    unfold factDaily at ho
    rw [himg] at ho
    obtain ⟨⟨k, g⟩, hkg, rfl⟩ := List.mem_map.mp ho
    constructor
    · show g.length = _
      rw [groupBy_filterMap_count dailyKey (dailyImage pages dim) fact k g hkg]
      apply countP_congr_mem
      intro f hf
      unfold mapsToDaily
      rw [dailyKeyOfRow_mk]
    · show aggUniqueVisitors (g.map (fun j => j.f)) ≤ g.length
      unfold aggUniqueVisitors
      calc countDistinct ((g.map (fun j => j.f)).map (fun f => f.viewingcontactid))
          ≤ ((g.map (fun j => j.f)).map (fun f => f.viewingcontactid)).length :=
            countDistinct_le_length _
        _ = g.length := by rw [List.length_map, List.length_map]
  · intro o ho
    unfold factDailyWebsite at ho
    rw [himg] at ho
    obtain ⟨⟨k, g⟩, hkg, rfl⟩ := List.mem_map.mp ho
    constructor
    · show g.length = _
      rw [groupBy_filterMap_count websiteKey (dailyImage pages dim) fact k g hkg]
      apply countP_congr_mem
      intro f hf
      unfold mapsToWebsite
      rw [websiteKeyOfRow_mk]
    · show aggUniqueVisitors (g.map (fun j => j.f)) ≤ g.length
      unfold aggUniqueVisitors
      calc countDistinct ((g.map (fun j => j.f)).map (fun f => f.viewingcontactid))
          ≤ ((g.map (fun j => j.f)).map (fun f => f.viewingcontactid)).length :=
            countDistinct_le_length _
        _ = g.length := by rw [List.length_map, List.length_map]
  · intro o ho
    unfold factMonthly at ho
    rw [himg] at ho
    obtain ⟨⟨k, g⟩, hkg, rfl⟩ := List.mem_map.mp ho
    constructor
    · show g.length = _
      rw [groupBy_filterMap_count monthlyKey (dailyImage pages dim) fact k g hkg]
      apply countP_congr_mem
      intro f hf
      unfold mapsToMonthly
      rw [monthlyKeyOfRow_mk]
    · show aggUniqueVisitors (g.map (fun j => j.f)) ≤ g.length
      unfold aggUniqueVisitors
      calc countDistinct ((g.map (fun j => j.f)).map (fun f => f.viewingcontactid))
          ≤ ((g.map (fun j => j.f)).map (fun f => f.viewingcontactid)).length :=
            countDistinct_le_length _
        _ = g.length := by rw [List.length_map, List.length_map]
  · intro o ho
    unfold factDailyEmployee at ho
    rw [himge] at ho
    obtain ⟨⟨k, g⟩, hkg, rfl⟩ := List.mem_map.mp ho
    constructor
    · show g.length = _
      rw [groupBy_filterMap_count employeeKey (employeeImage pages dim emp) fact k g hkg]
      apply countP_congr_mem
      intro f hf
      unfold mapsToEmployee
      rw [employeeKeyOfRow_mk]
    · show aggUniqueVisitors (g.map (fun j => j.f)) ≤ g.length
      unfold aggUniqueVisitors
      calc countDistinct ((g.map (fun j => j.f)).map (fun f => f.viewingcontactid))
          ≤ ((g.map (fun j => j.f)).map (fun f => f.viewingcontactid)).length :=
            countDistinct_le_length _
        _ = g.length := by rw [List.length_map, List.length_map]
  · unfold sumRowCounts factDaily
    rw [List.map_map]
    have hcomp : ((fun o : FactDailyRow => o.row_count) ∘
          (fun kg : DailyKey × List JoinedRow3 => mkFactDailyRow kg.1 kg.2))
        = fun kg : DailyKey × List JoinedRow3 => kg.2.length := rfl
    rw [hcomp, groupBy_sum_lengths, himg, length_filterMap_countP]
    apply countP_congr_mem
    intro f hf
    show (dailyImage pages dim f).isSome = dimMatch dim f
    unfold dailyImage dimMatch dimLookup
    rw [← find?_isSome_any]
    cases dim.find? (fun d => decide (f.visitdatekey = some d.datekey)) <;> rfl

/-- C5 witness: the concrete three-row fact table against a one-page
inventory and a single matching dim_date row; both surviving rows land in
the one output group. -/
theorem rollup_row_counts_witness :
    w5row ∈ factDaily w5fact w5pages [mkTestDimRow 77] ∧
    w5row.row_count = w5fact.countP (mapsToDaily w5pages [mkTestDimRow 77] w5row) ∧
    w5row.unique_visitors ≤ w5row.row_count ∧
    sumRowCounts (factDaily w5fact w5pages [mkTestDimRow 77]) =
      w5fact.countP (fun f => dimMatch [mkTestDimRow 77] f) := by
  have h := rollup_row_counts w5fact w5pages [mkTestDimRow 77] []
    (by decide) (by decide) (by decide)
  have hmem : w5row ∈ factDaily w5fact w5pages [mkTestDimRow 77] := by decide
  exact ⟨hmem, (h.1 w5row hmem).1, (h.1 w5row hmem).2, h.2.2.2.2⟩

set_option maxHeartbeats 800000000 in
theorem filter_datekey_first :
    create_date_dimension.filter
      (fun d => decide ((some (20220101 : Int) : Option Int) = some d.datekey)) =
      [mkDimDateRow 18993] := by
  rw [create_date_dimension_eq_flatMap, filter_flatMap_comm]
  decide

/-- C5 as stated is false on the code in both directions: a fact row dated
outside the generated calendar contributes to no row_count at all (sum 0
over fact_daily but 1 base row), and a duplicated page_inventory key makes
one base fact row count twice in its group's row_count. -/
theorem rowcount_conservation_counterexample :
    (sumRowCounts (factDaily cexOrphanFact [] create_date_dimension) = 0 ∧
      cexOrphanFact.length = 1) ∧
    ((factDaily cexDupFact cexDupPages create_date_dimension).map
        (fun o => o.row_count) = [2] ∧
      cexDupFact.length = 1) := by
  refine ⟨⟨?_, rfl⟩, ?_, rfl⟩
  · rw [orphan_factDaily_nil]
    rfl
  · have hjoin : joinFactDate cexDupFact create_date_dimension =
        [(mkFactRow (some 20220101) (some "P") (some "a") none (some 1),
          mkDimDateRow 18993)] := by
      unfold joinFactDate cexDupFact
      rw [List.flatMap_cons, List.flatMap_nil]
      rw [show (fun d : DimDateRow =>
            decide ((mkFactRow (some 20220101) (some "P") (some "a") none
              (some 1)).visitdatekey = some d.datekey))
          = fun d : DimDateRow =>
              decide ((some (20220101 : Int) : Option Int) = some d.datekey) from rfl]
      rw [filter_datekey_first]
      rfl
    unfold factDaily joinDailyRows
    rw [hjoin]
    decide
